import Mathlib

/-!
Shallow embedding of the ROGUETHON repository (Python) in Lean 4, covering the
data model and operations needed by the verified claims: the color palette
(color.py), the message log (message_log.py), the Level and Fighter components
(components/level.py, components/fighter.py), the Equipment bonuses
(components/equipment.py), the action layer (actions.py), the enemy-turn driver
(engine.py), the two action-execution wrappers (input_handlers.py), the
consumables (components/consumable.py) and the tile catalog (tile_types.py).

Python integers are arbitrary precision, so they are embedded as `Int`.
Python strings are embedded as `String`.  Exceptions (`exceptions.Impossible`,
and the `AttributeError` a missing module attribute raises) are embedded as an
explicit `Except` channel.  Mutable object graphs are embedded as explicit
state passing over records; where the source dispatches dynamically (an item's
Consumable, an actor's AI object, the toolkit's `compute_fov`), the embedded
operation takes that behaviour as a function parameter.
-/

namespace Roguethon

/-- RGB colors, as in color.py (exact 8-bit triples). -/
abbrev Color := Int × Int × Int

namespace color

def white : Color := (0xFF, 0xFF, 0xFF)
def player_atk : Color := (0xE0, 0xE0, 0xE0)
def enemy_atk : Color := (0xFF, 0xC0, 0xC0)
def status_effect_applied : Color := (0x3F, 0xFF, 0x3F)
def player_die : Color := (0xFF, 0x30, 0x30)
def enemy_die : Color := (0xFF, 0xA0, 0x30)
def impossible : Color := (0x80, 0x80, 0x80)
def health_recovered : Color := (0x0, 0xFF, 0x0)
def descend : Color := (0x9F, 0x3F, 0xFF)

end color

/-- message_log.py `Message`: plain text, color, repeat counter. -/
structure Message where
  plain_text : String
  fg : Color
  count : Int
deriving Repr, DecidableEq

/-- message_log.py `MessageLog`: append-ordered list of messages. -/
structure MessageLog where
  messages : List Message
deriving Repr, DecidableEq

/-- message_log.py `MessageLog.add_message` (stacking: if `stack` and the text
equals the last message's plain text, that message's counter is incremented,
otherwise a fresh `Message` is appended).  All modelled call sites use the
default `stack=True`. -/
def MessageLog.add_message (log : MessageLog) (text : String) (fg : Color)
    (stack : Bool) : MessageLog :=
  match log.messages.getLast? with
  | some last =>
      if stack ∧ text = last.plain_text then
        ⟨log.messages.dropLast ++ [{ last with count := last.count + 1 }]⟩
      else
        ⟨log.messages ++ [⟨text, fg, 1⟩]⟩
  | none => ⟨log.messages ++ [⟨text, fg, 1⟩]⟩

/-- The plain texts currently held by a log (used to state "a message with this
text was logged"). -/
def MessageLog.texts (log : MessageLog) : List String :=
  log.messages.map Message.plain_text

/-- exceptions.py `Impossible`: carries the user-facing reason string. -/
structure Impossible where
  msg : String
deriving Repr, DecidableEq

/-- render_order.py: paint tiers (corpse < item < actor). -/
inductive RenderOrder
  | CORPSE
  | ITEM
  | ACTOR
deriving Repr, DecidableEq

/-- components/level.py `Level`. -/
structure Level where
  current_level : Int
  current_xp : Int
  level_up_base : Int
  level_up_factor : Int
  xp_given : Int
deriving Repr, DecidableEq

/-- level.py `experience_to_next_level`. -/
def Level.experience_to_next_level (l : Level) : Int :=
  l.level_up_base + l.current_level * l.level_up_factor

/-- level.py `requires_level_up`. -/
def Level.requires_level_up (l : Level) : Bool :=
  l.current_xp ≥ l.experience_to_next_level

/-- level.py `add_xp` (returns the updated level and message log; a no-op when
`xp == 0` or `level_up_base == 0`). -/
def Level.add_xp (l : Level) (xp : Int) (log : MessageLog) :
    Level × MessageLog :=
  if xp = 0 ∨ l.level_up_base = 0 then (l, log)
  else
    let l2 : Level := { l with current_xp := l.current_xp + xp }
    let log2 := log.add_message
      ("Has ganado " ++ toString xp ++ " puntos de experiencia.")
      color.white true
    if l2.requires_level_up then
      let nl := l2.current_level + 1
      (l2, log2.add_message ("Has subido al nivel " ++ toString nl ++ "!")
        color.white true)
    else (l2, log2)

/-- level.py `increase_level`. -/
def Level.increase_level (l : Level) : Level :=
  { l with current_xp := l.current_xp - l.experience_to_next_level,
           current_level := l.current_level + 1 }

/-- components/fighter.py `Fighter` state (`_hp` is the raw stored health
behind the clamping `hp` property). -/
structure Fighter where
  max_hp : Int
  hp_stored : Int
  base_defense : Int
  base_power : Int
  defensive_turns : Int
  defense_bonus_turns : Int
  temp_defense_bonus : Int
deriving Repr, DecidableEq

/-- components/equipment.py: the two slots, each holding the equipped item's
Equippable bonuses when present (components/equippable.py data). -/
structure Slot where
  power_bonus : Int
  defense_bonus : Int
deriving Repr, DecidableEq

structure Equipment where
  weapon : Option Slot
  armor : Option Slot
deriving Repr, DecidableEq

/-- equipment.py `power_bonus` property. -/
def Equipment.power_bonus (e : Equipment) : Int :=
  (match e.weapon with | some w => w.power_bonus | none => 0) +
  (match e.armor with | some a => a.power_bonus | none => 0)

/-- equipment.py `defense_bonus` property. -/
def Equipment.defense_bonus (e : Equipment) : Int :=
  (match e.weapon with | some w => w.defense_bonus | none => 0) +
  (match e.armor with | some a => a.defense_bonus | none => 0)

/-- entity.py `Actor`: entity fields plus its components.  The AI object's
behaviour is dynamic (components/ai.py subclasses); the embedding records only
its presence (`ai = true` iff `Actor.ai` is not `None`) and takes the per-turn
behaviour as a parameter where the driver invokes it. -/
structure Actor where
  x : Int
  y : Int
  char : String
  color : Color
  name : String
  blocks_movement : Bool
  render_order : RenderOrder
  ai : Bool
  fighter : Fighter
  equipment : Equipment
  level : Level
  invisibility_turns : Int
deriving Repr, DecidableEq

/-- fighter.py `power` property: `base_power + power_bonus`, where the
power bonus reads the parent actor's (always present) equipment. -/
def Fighter.power (a : Actor) : Int :=
  a.fighter.base_power + a.equipment.power_bonus

/-- fighter.py `defense` property:
`base_defense + defense_bonus + temp_defense_bonus`. -/
def Fighter.defense (a : Actor) : Int :=
  a.fighter.base_defense + a.equipment.defense_bonus +
    a.fighter.temp_defense_bonus

/-- The slice of the engine a Fighter method touches: its parent actor,
whether that actor is `engine.player`, the player's Level component (when the
parent is not the player; when it is, the player's level is `parent.level`),
`engine.last_player_name` and `engine.message_log`. -/
structure FState where
  parent : Actor
  is_player : Bool
  player_level : Level
  last_player_name : String
  message_log : MessageLog
deriving Repr, DecidableEq

/-- `engine.player.level.add_xp(xp)` as seen from a Fighter method: the
player's level is the parent's own Level exactly when the parent is the
player. -/
def FState.player_add_xp (s : FState) (xp : Int) : FState :=
  if s.is_player then
    let r := s.parent.level.add_xp xp s.message_log
    { s with parent := { s.parent with level := r.1 }, message_log := r.2 }
  else
    let r := s.player_level.add_xp xp s.message_log
    { s with player_level := r.1, message_log := r.2 }

/-- fighter.py `die` (fighter.py lines 67-89): death message (player vs other),
corpse fields on the parent entity, log the message, award the player
`parent.level.xp_given` XP.  The parent's *name* is never changed; only
`engine.last_player_name` is recorded when the player dies. -/
def Fighter.die (s : FState) : FState :=
  let s1 :=
    if s.is_player then { s with last_player_name := s.parent.name } else s
  let death_message :=
    if s1.is_player then "Has muerto" else s1.parent.name ++ " esta muerto"
  let death_message_color :=
    if s1.is_player then color.player_die else color.enemy_die
  let p := { s1.parent with
    char := "%",
    color := ((191 : Int), (0 : Int), (0 : Int)),
    blocks_movement := false,
    ai := false,
    render_order := RenderOrder.CORPSE }
  let s2 := { s1 with
    parent := p,
    message_log :=
      s1.message_log.add_message death_message death_message_color true }
  s2.player_add_xp p.level.xp_given

/-- fighter.py `hp` setter: clamp to `[0, max_hp]`, then run `die()` when the
stored hp is 0 and the parent still has an AI. -/
def Fighter.set_hp (s : FState) (value : Int) : FState :=
  let f := s.parent.fighter
  let newhp := max 0 (min value f.max_hp)
  let p := { s.parent with fighter := { f with hp_stored := newhp } }
  let s1 := { s with parent := p }
  if newhp == 0 && s1.parent.ai then Fighter.die s1 else s1

/-- fighter.py `take_damage`: negated (with a log line) while
`defensive_turns > 0`, otherwise `hp -= amount` through the setter. -/
def Fighter.take_damage (s : FState) (amount : Int) : FState :=
  let f := s.parent.fighter
  if f.defensive_turns > 0 then
    { s with
      message_log :=
        s.message_log.add_message
          (s.parent.name ++ " ignora el dano gracias al efecto defensivo.")
          color.status_effect_applied true }
  else
    Fighter.set_hp s (f.hp_stored - amount)

/-- fighter.py `heal`: returns the updated state and the amount actually
recovered. -/
def Fighter.heal (s : FState) (amount : Int) : FState × Int :=
  let f := s.parent.fighter
  if f.hp_stored = f.max_hp then (s, 0)
  else
    let new_hp_value := f.hp_stored + amount
    let new_hp_value :=
      if new_hp_value > f.max_hp then f.max_hp else new_hp_value
    let amount_recovered := new_hp_value - f.hp_stored
    (Fighter.set_hp s new_hp_value, amount_recovered)

/-- fighter.py `activate_defensive_mode`. -/
def Fighter.activate_defensive_mode (f : Fighter) (turns : Int) : Fighter :=
  { f with defensive_turns := turns }

/-- fighter.py `activate_defense_bonus`: the bonus accumulates additively,
the duration is overwritten. -/
def Fighter.activate_defense_bonus (f : Fighter) (bonus turns : Int) :
    Fighter :=
  { f with temp_defense_bonus := f.temp_defense_bonus + bonus,
           defense_bonus_turns := turns }

/-- fighter.py `on_turn_end` (reads and writes only the parent actor's fighter
and the message log): decrement the two positive countdowns; then, if
`defense_bonus_turns == 0` and a positive temp bonus is held, log the
"piel vuelve a la normalidad" line and clear the temp bonus. -/
def Fighter.on_turn_end (a : Actor) (log : MessageLog) :
    Actor × MessageLog :=
  let dt :=
    if a.fighter.defensive_turns > 0 then a.fighter.defensive_turns - 1
    else a.fighter.defensive_turns
  let dbt :=
    if a.fighter.defense_bonus_turns > 0 then
      a.fighter.defense_bonus_turns - 1
    else a.fighter.defense_bonus_turns
  if dbt = 0 ∧ a.fighter.temp_defense_bonus > 0 then
    let msg := a.name ++ " siente que su piel vuelve a la normalidad."
    let f2 : Fighter :=
      { a.fighter with
        defensive_turns := dt
        defense_bonus_turns := dbt
        temp_defense_bonus := 0 }
    ({ a with fighter := f2 },
     log.add_message msg color.status_effect_applied true)
  else
    let f2 : Fighter :=
      { a.fighter with
        defensive_turns := dt
        defense_bonus_turns := dbt }
    ({ a with fighter := f2 }, log)

/-- level.py `increase_max_hp`: raise `max_hp`, then `hp += amount` through
the clamping setter, log, and `increase_level()`. -/
def Level.increase_max_hp (s : FState) (amount : Int) : FState :=
  let f := s.parent.fighter
  let p1 := { s.parent with fighter := { f with max_hp := f.max_hp + amount } }
  let s1 := { s with parent := p1 }
  let s2 := Fighter.set_hp s1 (s1.parent.fighter.hp_stored + amount)
  let log3 :=
    s2.message_log.add_message ("Te sientes con mas vigor.") color.white true
  let s3 := { s2 with message_log := log3 }
  let p3 := { s3.parent with level := s3.parent.level.increase_level }
  { s3 with parent := p3 }

/-! ## Tile catalog (tile_types.py) and game map (game_map.py) -/

/-- tile_types.py tile record.  The two glyph/color graphics are abbreviated
to the glyph code points (the fg/bg colors are identical across the four
catalog tiles and play no role in any modelled operation); `walkable` and
`transparent` are kept exactly. -/
structure Tile where
  walkable : Bool
  transparent : Bool
  dark_ch : Int
  light_ch : Int
deriving Repr, DecidableEq

namespace tile_types

def floor : Tile := ⟨true, true, 46, 46⟩

def wall : Tile := ⟨false, false, 35, 35⟩

def down_stairs : Tile := ⟨true, true, 62, 62⟩

def door : Tile := ⟨true, false, 38, 38⟩

/-- The attribute namespace of the tile_types module, as a lookup from
attribute name to tile value: the module's top-level tile definitions are
exactly `floor`, `wall`, `down_stairs` and `door` (plus the non-tile names
`graphic_dt`, `tile_dt`, `new_tile` and the `SHROUD` graphic).  Accessing any
other attribute — in particular `hidden_wall_tile` — raises `AttributeError`
in Python, embedded here as a `none` result. -/
def tile_attr : String → Option Tile
  | "floor" => some floor
  | "wall" => some wall
  | "down_stairs" => some down_stairs
  | "door" => some door
  | _ => none

end tile_types

/-- The fields of an entity relevant to game_map.py queries. -/
structure EntityLite where
  x : Int
  y : Int
  blocks_movement : Bool
deriving Repr, DecidableEq

/-- game_map.py `GameMap` slice used by the action layer: dimensions, the tile
grid (total function; out-of-bounds reads never occur in the modelled code
paths because `in_bounds` guards them), and the entity set (a Python set,
embedded as a list fixing one iteration order). -/
structure GameMap where
  width : Int
  height : Int
  tiles : Int → Int → Tile
  entities : List EntityLite

/-- game_map.py `in_bounds`. -/
def GameMap.in_bounds (m : GameMap) (x y : Int) : Bool :=
  decide (0 ≤ x ∧ x < m.width ∧ 0 ≤ y ∧ y < m.height)

/-- game_map.py `get_blocking_entity_at_location`: the first entity in
iteration order that blocks movement and stands at the location. -/
def GameMap.get_blocking_entity_at_location (m : GameMap) (lx ly : Int) :
    Option EntityLite :=
  m.entities.find? (fun e => e.blocks_movement && e.x == lx && e.y == ly)

/-! ## Action layer (actions.py) -/

/-- Python `str.capitalize`: first character upper-cased, the rest
lower-cased. -/
def pyCapitalize (s : String) : String :=
  match s.data with
  | [] => s
  | c :: cs => ⟨c.toUpper :: cs.map Char.toLower⟩

/-- actions.py `MeleeAction.perform`, specialised to the case where a target
actor stands at the destination (`self.target_actor` is not `None`).
`attacker` is the acting actor, `attacker_is_player` embeds the identity test
`self.entity is self.engine.player`, and `tgt` is the engine slice around the
target actor (`tgt.is_player` marks the target being the player).  Damage is
`attacker power - target defense`; when it is positive it is applied through
the hp setter, when it is zero or negative the attack still deals exactly 1
point of damage (and logs "Hace 1 punto de dano."). -/
def MeleeAction.perform_hit (attacker : Actor) (attacker_is_player : Bool)
    (tgt : FState) : FState :=
  let damage := Fighter.power attacker - Fighter.defense tgt.parent
  let attack_desc :=
    pyCapitalize attacker.name ++ " ataca a " ++ tgt.parent.name ++ "."
  let attack_color :=
    if attacker_is_player then color.player_atk else color.enemy_atk
  if damage > 0 then
    let line := attack_desc ++ " Hace " ++ toString damage ++
      " puntos de dano."
    let tgt1 := { tgt with
      message_log := tgt.message_log.add_message line attack_color true }
    Fighter.set_hp tgt1 (tgt1.parent.fighter.hp_stored - damage)
  else
    let line := attack_desc ++ " Hace 1 punto de dano."
    let tgt1 := { tgt with
      message_log := tgt.message_log.add_message line attack_color true }
    Fighter.set_hp tgt1 (tgt1.parent.fighter.hp_stored - 1)

/-- actions.py `MeleeAction.perform` with the destination's actor made
explicit: no target raises Impossible ("Nada a lo que atacar."). -/
def MeleeAction.perform (attacker : Actor) (attacker_is_player : Bool)
    (target : Option FState) : Except Impossible FState :=
  match target with
  | none => .error ⟨"Nada a lo que atacar."⟩
  | some tgt => .ok (MeleeAction.perform_hit attacker attacker_is_player tgt)

/-- The acting entity's position, the only entity state
`MovementAction.perform` touches (via `Entity.move`). -/
structure MoverPos where
  x : Int
  y : Int
deriving Repr, DecidableEq

/-- actions.py `MovementAction.perform`.  The `Except` channel is present to
make "raises Impossible" statable, but the method never raises: an
out-of-bounds or non-walkable destination logs ("Esto es una pared.") (in the
impossible tint) and returns; a destination with a blocking entity returns
with no message at all; otherwise the entity moves by `(dx, dy)`
(entity.py `Entity.move`). -/
def MovementAction.perform (m : GameMap) (e : MoverPos) (dx dy : Int)
    (log : MessageLog) : Except Impossible (MoverPos × MessageLog) :=
  let dest_x := e.x + dx
  let dest_y := e.y + dy
  if ¬ m.in_bounds dest_x dest_y then
    .ok (e, log.add_message ("Esto es una pared.") color.impossible true)
  else if ¬ (m.tiles dest_x dest_y).walkable then
    .ok (e, log.add_message ("Esto es una pared.") color.impossible true)
  else if (m.get_blocking_entity_at_location dest_x dest_y).isSome then
    .ok (e, log)
  else
    .ok ({ x := e.x + dx, y := e.y + dy }, log)

/-- The error outcomes a Python call can have in the modelled fragment:
a raised `Impossible`, or a raised `AttributeError` from a missing module
attribute. -/
inductive PyError
  | impossibleExc (msg : String)
  | attributeError (attr : String)
deriving Repr, DecidableEq

/-- actions.py `RevealHiddenWallAction.perform`: reads the target tile, then
compares it against `tile_types.hidden_wall_tile`.  That attribute access is
embedded through `tile_types.tile_attr`; since the module defines no such
name, the comparison line itself fails with `AttributeError` before either
branch (revealing the tile, or raising Impossible "No hay nada que revelar
aquí.") can run. -/
def RevealHiddenWallAction.perform (m : GameMap) (log : MessageLog)
    (target_x target_y : Int) : Except PyError (GameMap × MessageLog) :=
  let tile := m.tiles target_x target_y
  match tile_types.tile_attr ("hidden_wall_tile") with
  | none => .error (.attributeError ("hidden_wall_tile"))
  | some hidden =>
      if tile = hidden then
        let tiles2 := fun x y =>
          if x = target_x ∧ y = target_y then tile_types.floor else m.tiles x y
        .ok ({ m with tiles := tiles2 },
          log.add_message ("Has descubierto una pared falsa.")
            color.player_atk true)
      else
        .error (.impossibleExc "No hay nada que revelar aquí.")

/-! ## Engine state, enemy-turn driver (engine.py) and the action-execution
wrappers (input_handlers.py) -/

/-- The slice of the live `Engine` the turn machinery touches: the player,
the other actors of the current map (the Python code iterates
`set(game_map.actors) - {player}`, an unordered set; the embedding fixes one
iteration order as this list), the message log, `last_player_name`, the
player's inventory (as the list of carried item identifiers, used by
`Consumable.consume`), and the map's `visible`/`explored` bitmaps. -/
structure HEngine where
  player : Actor
  enemies : List Actor
  message_log : MessageLog
  last_player_name : String
  inventory : List Nat
  visible : Int → Int → Bool
  explored : Int → Int → Bool

/-- A per-actor AI turn, the dynamic-dispatch point `entity.ai.perform()`
(components/ai.py subclasses).  The driver is proved generic in this
behaviour. -/
abbrev AIStep := Actor → HEngine → Except Impossible HEngine

/-- The toolkit's `compute_fov` (external to the repository): from the player
position to a visibility grid. -/
abbrev FovFn := Int → Int → (Int → Int → Bool)

/-- The `for entity in set(actors) - {player}: if entity.ai:
entity.ai.perform()` loop of engine.py `handle_enemy_turns`.  There is no
exception handling in the source loop: an Impossible raised by one actor's AI
propagates immediately and the remaining actors are not processed. -/
def enemyTurnLoop (aiStep : AIStep) :
    List Actor → HEngine → Except Impossible HEngine
  | [], s => .ok s
  | e :: rest, s =>
      if e.ai then
        match aiStep e s with
        | .error exc => .error exc
        | .ok s2 => enemyTurnLoop aiStep rest s2
      else
        enemyTurnLoop aiStep rest s

/-- The first block of engine.py `handle_enemy_turns`: decrement the player's
invisibility counter, logging "vuelve a ser visible" exactly at the
transition to 0. -/
def Engine.invisibility_step (s : HEngine) : HEngine :=
  if s.player.invisibility_turns > 0 then
    let p := { s.player with
      invisibility_turns := s.player.invisibility_turns - 1 }
    let sa := { s with player := p }
    if p.invisibility_turns = 0 then
      let vmsg := p.name ++ " vuelve a ser visible."
      let vlog := sa.message_log.add_message vmsg
        color.status_effect_applied true
      { sa with message_log := vlog }
    else sa
  else s

/-- engine.py `handle_enemy_turns` (lines 57-69): the invisibility block,
then every other actor's AI turn, with no Impossible handler around the
loop. -/
def Engine.handle_enemy_turns (aiStep : AIStep) (s : HEngine) :
    Except Impossible HEngine :=
  enemyTurnLoop aiStep (Engine.invisibility_step s).enemies
    (Engine.invisibility_step s)

/-- engine.py `update_fov`: recompute `visible` from the player position
(radius 8, shadow casting — delegated to the toolkit, here the `fovFn`
parameter) and union it into `explored`. -/
def Engine.update_fov (fovFn : FovFn) (s : HEngine) : HEngine :=
  let vis := fovFn s.player.x s.player.y
  { s with visible := vis,
           explored := fun x y => s.explored x y || vis x y }

/-- An action's `perform()` as the wrappers see it: a state transformer that
may raise Impossible.  The wrappers dispatch dynamically on the action
object; concrete instances below are translated from actions.py. -/
abbrev GAction := HEngine → Except Impossible HEngine

/-- actions.py `WaitAction.perform`: does nothing. -/
def WaitAction.perform : GAction := fun s => .ok s

/-- input_handlers.py `EventHandler.handle_action` (lines 124-141), the base
wrapper inherited by every non-main-game in-game handler (the Ask-User /
inventory / targeting family): perform the action; on Impossible log the
message in the impossible tint and report the turn as not advanced; on
success run the enemy turns and the FOV recompute and report the turn
advanced.  It does NOT call the player's `on_turn_end`.  An Impossible
escaping `handle_enemy_turns` is not caught here (the `try` only wraps
`action.perform()`). -/
def EventHandler.handle_action (aiStep : AIStep) (fovFn : FovFn)
    (s : HEngine) (action : Option GAction) :
    Except Impossible (HEngine × Bool) :=
  match action with
  | none => .ok (s, false)
  | some perf =>
      match perf s with
      | .error exc =>
          let elog := s.message_log.add_message exc.msg color.impossible true
          .ok ({ s with message_log := elog }, false)
      | .ok s1 =>
          match Engine.handle_enemy_turns aiStep s1 with
          | .error exc => .error exc
          | .ok s2 => .ok (Engine.update_fov fovFn s2, true)

/-- input_handlers.py `MainGameEventHandler.handle_action` (lines 551-568):
as the base wrapper, but on success it first calls the player Fighter's
`on_turn_end` (the `if self.engine.player.fighter:` guard is always true —
every Actor carries a Fighter), then the enemy turns, then the FOV
recompute. -/
def MainGameEventHandler.handle_action (aiStep : AIStep) (fovFn : FovFn)
    (s : HEngine) (action : Option GAction) :
    Except Impossible (HEngine × Bool) :=
  match action with
  | none => .ok (s, false)
  | some perf =>
      match perf s with
      | .error exc =>
          let elog := s.message_log.add_message exc.msg color.impossible true
          .ok ({ s with message_log := elog }, false)
      | .ok s1 =>
          let pl := Fighter.on_turn_end s1.player s1.message_log
          let s1b := { s1 with player := pl.1, message_log := pl.2 }
          match Engine.handle_enemy_turns aiStep s1b with
          | .error exc => .error exc
          | .ok s2 => .ok (Engine.update_fov fovFn s2, true)

/-! ## ItemAction and consumables (actions.py, components/consumable.py) -/

/-- View the player inside an `HEngine` as the engine slice a Fighter method
needs (the player's Level is its own `level` component). -/
def HEngine.toPlayerFState (s : HEngine) : FState :=
  ⟨s.player, true, s.player.level, s.last_player_name, s.message_log⟩

/-- Write a player-`FState` back into the engine. -/
def HEngine.ofPlayerFState (s : HEngine) (fs : FState) : HEngine :=
  { s with player := fs.parent, message_log := fs.message_log,
           last_player_name := fs.last_player_name }

/-- consumable.py `Consumable.consume`: remove the owning item from the
inventory that holds it (first occurrence, by identity). -/
def Consumable.consume (item_id : Nat) (s : HEngine) : HEngine :=
  { s with inventory := s.inventory.erase item_id }

/-- actions.py `ItemAction.perform` (lines 84-91): delegate to the item's
consumable `activate` when present — and catch `exceptions.Impossible`
LOCALLY, logging the carried message in the impossible tint and returning
normally.  The exception is therefore never re-raised to the event handler's
wrapper. -/
def ItemAction.perform (consumable : Option (HEngine → Except Impossible HEngine))
    (s : HEngine) : Except Impossible HEngine :=
  match consumable with
  | none => .ok s
  | some activate =>
      match activate s with
      | .error exc =>
          let elog := s.message_log.add_message exc.msg color.impossible true
          .ok { s with message_log := elog }
      | .ok s2 => .ok s2

/-- consumable.py `HealingConsumable.activate` with the player as consumer
(`action.entity`): raise Impossible ("Tienes la vida al maximo.") at full
health, otherwise heal, log the recovered amount, and consume the item. -/
def HealingConsumable.activate (amount : Int) (item_id : Nat)
    (s : HEngine) : Except Impossible HEngine :=
  let f := s.player.fighter
  if f.hp_stored = f.max_hp then
    .error ⟨"Tienes la vida al maximo."⟩
  else
    let fs := s.toPlayerFState
    let healed := Fighter.heal fs amount
    let fs1 := healed.1
    let amount_recovered := healed.2
    let fs2 :=
      if amount_recovered > 0 then
        let rmsg := "Recuperaste " ++ toString amount_recovered ++
          " puntos de vida."
        let rlog := fs1.message_log.add_message rmsg
          color.health_recovered true
        { fs1 with message_log := rlog }
      else
        let rlog := fs1.message_log.add_message
          ("No puedes recuperar más salud.") color.impossible true
        { fs1 with message_log := rlog }
    .ok (Consumable.consume item_id (s.ofPlayerFState fs2))

/-- The squared Euclidean offset between an actor and the consumer (the
player): entity.py `distance` returns `math.sqrt` of this value. -/
def dist2 (s : HEngine) (a : Actor) : Int :=
  (a.x - s.player.x) ^ 2 + (a.y - s.player.y) ^ 2

/-- The comparison `distance < closest_distance` of the lightning selection
loop, in exact real-number semantics over squared distances:
`closest_distance` starts as the float `maximum_range + 1.0` (the `none`
case: `sqrt d2 < R + 1  ↔  0 < R + 1 ∧ d2 < (R + 1)^2`) and later holds an
actual distance (the `some c2` case: `sqrt d2 < sqrt c2 ↔ d2 < c2`). -/
def closerThan (maximum_range d2 : Int) : Option Int → Prop
  | none => 0 < maximum_range + 1 ∧ d2 < (maximum_range + 1) ^ 2
  | some c2 => d2 < c2

instance closerThanDec (maximum_range d2 : Int) :
    (closest : Option Int) → Decidable (closerThan maximum_range d2 closest)
  | none => inferInstanceAs (Decidable (_ ∧ _))
  | some _ => inferInstanceAs (Decidable (_ < _))

/-- The `for actor in self.engine.game_map.actors` selection loop of
consumable.py `LightningDamageConsumable.activate`.  The consumer (the
player) is excluded up front (`actor is not consumer`), so the loop runs over
the other actors; an actor on a visible tile replaces the current target when
its distance is strictly below the current `closest_distance`.  The
accumulator carries the current target (index into the enemy list plus the
actor) and its squared distance (`none` while `closest_distance` still holds
the initial bound `maximum_range + 1.0`). -/
def lightningLoop (s : HEngine) (maximum_range : Int) :
    List (Nat × Actor) → Option (Nat × Actor) → Option Int →
    Option (Nat × Actor)
  | [], tgt, _ => tgt
  | (idx, actor) :: rest, tgt, closest =>
      if s.visible actor.x actor.y then
        if closerThan maximum_range (dist2 s actor) closest then
          lightningLoop s maximum_range rest (some (idx, actor))
            (some (dist2 s actor))
        else lightningLoop s maximum_range rest tgt closest
      else lightningLoop s maximum_range rest tgt closest

/-- consumable.py `LightningDamageConsumable.activate` with the player as
consumer: pick the nearest visible other actor whose distance is strictly
below `maximum_range + 1` (first-found on ties, per the strict `<` update),
log the strike, apply `take_damage(damage)` to it and consume the scroll;
with no such actor, raise Impossible "Ningun enemigo a la vista para
atacar." (and consume nothing). -/
def LightningDamageConsumable.activate (damage maximum_range : Int)
    (item_id : Nat) (s : HEngine) : Except Impossible HEngine :=
  match lightningLoop s maximum_range s.enemies.enum none none with
  | some (idx, target) =>
      let line := "Un rayo golpea al " ++ target.name ++
        " con gran estruendo. Hace " ++ toString damage ++ " de dano."
      let llog := s.message_log.add_message line color.white true
      let s1 := { s with message_log := llog }
      let fs : FState :=
        ⟨target, false, s1.player.level, s1.last_player_name, s1.message_log⟩
      let fs1 := Fighter.take_damage fs damage
      let s2 := { s1 with
        enemies := s1.enemies.set idx fs1.parent,
        player := { s1.player with level := fs1.player_level },
        message_log := fs1.message_log,
        last_player_name := fs1.last_player_name }
      .ok (Consumable.consume item_id s2)
  | none => .error ⟨"Ningun enemigo a la vista para atacar."⟩

/-! ## Result projections used in theorem statements

`HEngine` carries function-typed bitmaps, so theorems observe results through
these projections rather than whole-state equality. -/

/-- Did the wrapper report the turn as advanced (`none` when the call itself
raised)? -/
def advancedOf : Except Impossible (HEngine × Bool) → Option Bool
  | .ok (_, b) => some b
  | .error _ => none

/-- The message texts of a wrapper result's state. -/
def wrapTextsOf : Except Impossible (HEngine × Bool) → Option (List String)
  | .ok (s, _) => some s.message_log.texts
  | .error _ => none

/-- The player's invisibility counter in a wrapper result. -/
def wrapInvisOf : Except Impossible (HEngine × Bool) → Option Int
  | .ok (s, _) => some s.player.invisibility_turns
  | .error _ => none

/-- The player's `defensive_turns` in a wrapper result. -/
def wrapDefTurnsOf : Except Impossible (HEngine × Bool) → Option Int
  | .ok (s, _) => some s.player.fighter.defensive_turns
  | .error _ => none

/-- The enemies' stored hit points in an activation result. -/
def okEnemyHpOf : Except Impossible HEngine → Option (List Int)
  | .ok s => some (s.enemies.map (fun a => a.fighter.hp_stored))
  | .error _ => none

/-- The inventory in an activation result. -/
def okInventoryOf : Except Impossible HEngine → Option (List Nat)
  | .ok s => some s.inventory
  | .error _ => none

/-- The message texts in an activation result. -/
def okTextsOf : Except Impossible HEngine → Option (List String)
  | .ok s => some s.message_log.texts
  | .error _ => none

/-! ## Shared lemmas about the embedded operations -/

theorem MessageLog.texts_add_message_cases (log : MessageLog) (t : String)
    (fg : Color) (st : Bool) :
    (log.add_message t fg st).texts = log.texts ++ [t] ∨
    ((log.add_message t fg st).texts = log.texts ∧ t ∈ log.texts) := by
  rcases List.eq_nil_or_concat log.messages with h | ⟨l2, a, h⟩
  · left
    simp [MessageLog.add_message, MessageLog.texts, h]
  · rw [List.concat_eq_append] at h
    rw [MessageLog.add_message, h]
    rw [List.getLast?_concat]
    by_cases hc : st = true ∧ t = a.plain_text
    · right
      simp only [hc, and_self, if_true, List.dropLast_concat]
      constructor
      · simp [MessageLog.texts, h]
      · simp [MessageLog.texts, h, hc.2]
    · left
      simp only [hc, if_false]
      simp [MessageLog.texts, h]

theorem MessageLog.mem_texts_add_self (log : MessageLog) (t : String)
    (fg : Color) (st : Bool) : t ∈ (log.add_message t fg st).texts := by
  rcases MessageLog.texts_add_message_cases log t fg st with h | ⟨h1, h2⟩
  · rw [h]; exact List.mem_append_right _ (List.mem_singleton.mpr rfl)
  · rw [h1]; exact h2

theorem MessageLog.mem_texts_add_mono {log : MessageLog} {u : String}
    (t : String) (fg : Color) (st : Bool) (h : u ∈ log.texts) :
    u ∈ (log.add_message t fg st).texts := by
  rcases MessageLog.texts_add_message_cases log t fg st with hc | ⟨hc, _⟩
  · rw [hc]; exact List.mem_append_left _ h
  · rw [hc]; exact h

theorem Level.add_xp_fst (l : Level) (xp : Int) (log : MessageLog) :
    (Level.add_xp l xp log).1 =
      if xp = 0 ∨ l.level_up_base = 0 then l
      else { l with current_xp := l.current_xp + xp } := by
  rw [Level.add_xp]
  split
  · rfl
  · dsimp only
    split <;> rfl

theorem Level.add_xp_texts_mono {log : MessageLog} {u : String} (l : Level)
    (xp : Int) (h : u ∈ log.texts) :
    u ∈ (Level.add_xp l xp log).2.texts := by
  rw [Level.add_xp]
  split
  · exact h
  · dsimp only
    split
    · exact MessageLog.mem_texts_add_mono _ _ _
        (MessageLog.mem_texts_add_mono _ _ _ h)
    · exact MessageLog.mem_texts_add_mono _ _ _ h

theorem FState.player_add_xp_parent_fighter (s : FState) (xp : Int) :
    (s.player_add_xp xp).parent.fighter = s.parent.fighter := by
  rw [FState.player_add_xp]
  split <;> rfl

theorem FState.player_add_xp_parent_entity (s : FState) (xp : Int) :
    (s.player_add_xp xp).parent.char = s.parent.char ∧
    (s.player_add_xp xp).parent.color = s.parent.color ∧
    (s.player_add_xp xp).parent.name = s.parent.name ∧
    (s.player_add_xp xp).parent.blocks_movement = s.parent.blocks_movement ∧
    (s.player_add_xp xp).parent.ai = s.parent.ai ∧
    (s.player_add_xp xp).parent.render_order = s.parent.render_order := by
  rw [FState.player_add_xp]
  split <;> exact ⟨rfl, rfl, rfl, rfl, rfl, rfl⟩

theorem FState.player_add_xp_texts_mono {s : FState} {u : String} (xp : Int)
    (h : u ∈ s.message_log.texts) :
    u ∈ (s.player_add_xp xp).message_log.texts := by
  rw [FState.player_add_xp]
  split
  · exact Level.add_xp_texts_mono _ _ h
  · exact Level.add_xp_texts_mono _ _ h

theorem Fighter.die_parent_fighter (s : FState) :
    (Fighter.die s).parent.fighter = s.parent.fighter := by
  rw [Fighter.die]
  rw [FState.player_add_xp_parent_fighter]
  split <;> rfl

theorem Fighter.die_parent_fields (s : FState) :
    (Fighter.die s).parent.char = "%" ∧
    (Fighter.die s).parent.color = ((191 : Int), (0 : Int), (0 : Int)) ∧
    (Fighter.die s).parent.blocks_movement = false ∧
    (Fighter.die s).parent.ai = false ∧
    (Fighter.die s).parent.render_order = RenderOrder.CORPSE ∧
    (Fighter.die s).parent.name = s.parent.name := by
  rw [Fighter.die]
  obtain ⟨h1, h2, h3, h4, h5, h6⟩ := FState.player_add_xp_parent_entity
    ({ (if s.is_player then { s with last_player_name := s.parent.name }
        else s) with
      parent := _,
      message_log := _ }) _
  refine ⟨h1.trans ?_, h2.trans ?_, h4.trans ?_, h5.trans ?_, h6.trans ?_,
    h3.trans ?_⟩ <;> split <;> rfl

theorem Fighter.die_texts_mono {s : FState} {u : String}
    (h : u ∈ s.message_log.texts) : u ∈ (Fighter.die s).message_log.texts := by
  rw [Fighter.die]
  apply FState.player_add_xp_texts_mono
  apply MessageLog.mem_texts_add_mono
  split <;> exact h

theorem Fighter.die_msg_mem (s : FState) :
    (if s.is_player then "Has muerto" else s.parent.name ++ " esta muerto") ∈
      (Fighter.die s).message_log.texts := by
  rw [Fighter.die]
  apply FState.player_add_xp_texts_mono
  split <;> exact MessageLog.mem_texts_add_self _ _ _ _

theorem Fighter.set_hp_hp (s : FState) (v : Int) :
    (Fighter.set_hp s v).parent.fighter.hp_stored =
      max 0 (min v s.parent.fighter.max_hp) := by
  rw [Fighter.set_hp]
  split
  · rw [Fighter.die_parent_fighter]
  · rfl

theorem Fighter.set_hp_max (s : FState) (v : Int) :
    (Fighter.set_hp s v).parent.fighter.max_hp =
      s.parent.fighter.max_hp := by
  rw [Fighter.set_hp]
  split
  · rw [Fighter.die_parent_fighter]
  · rfl

theorem Fighter.set_hp_texts_mono {s : FState} {u : String} (v : Int)
    (h : u ∈ s.message_log.texts) :
    u ∈ (Fighter.set_hp s v).message_log.texts := by
  rw [Fighter.set_hp]
  split
  · exact Fighter.die_texts_mono h
  · exact h

theorem Fighter.set_hp_of_pos (s : FState) (v : Int)
    (h : max 0 (min v s.parent.fighter.max_hp) ≠ 0) :
    Fighter.set_hp s v =
      { s with parent := { s.parent with fighter :=
          { s.parent.fighter with
              hp_stored := max 0 (min v s.parent.fighter.max_hp) } } } := by
  rw [Fighter.set_hp]
  split
  · rename_i hcond
    rw [Bool.and_eq_true, beq_iff_eq] at hcond
    exact absurd hcond.1 h
  · rfl

theorem Fighter.set_hp_of_zero (s : FState) (v : Int)
    (h : max 0 (min v s.parent.fighter.max_hp) = 0)
    (hai : s.parent.ai = true) :
    Fighter.set_hp s v =
      Fighter.die { s with parent := { s.parent with fighter :=
          { s.parent.fighter with hp_stored := 0 } } } := by
  rw [Fighter.set_hp]
  split
  · rename_i hcond
    rw [h]
  · rename_i hcond
    rw [Bool.and_eq_true, beq_iff_eq] at hcond
    exact absurd ⟨h, hai⟩ hcond

theorem Fighter.take_damage_texts_mono {s : FState} {u : String}
    (amount : Int) (h : u ∈ s.message_log.texts) :
    u ∈ (Fighter.take_damage s amount).message_log.texts := by
  rw [Fighter.take_damage]
  split
  · exact MessageLog.mem_texts_add_mono _ _ _ h
  · exact Fighter.set_hp_texts_mono _ h

theorem Fighter.take_damage_hp (s : FState) (amount : Int) :
    (Fighter.take_damage s amount).parent.fighter.hp_stored =
      (if s.parent.fighter.defensive_turns > 0 then s.parent.fighter.hp_stored
       else max 0 (min (s.parent.fighter.hp_stored - amount)
         s.parent.fighter.max_hp)) := by
  rw [Fighter.take_damage]
  split
  · rfl
  · exact Fighter.set_hp_hp s _

theorem Fighter.take_damage_max (s : FState) (amount : Int) :
    (Fighter.take_damage s amount).parent.fighter.max_hp =
      s.parent.fighter.max_hp := by
  rw [Fighter.take_damage]
  split
  · rfl
  · rw [Fighter.set_hp_max]

theorem Fighter.heal_fst_hp (s : FState) (amount : Int) :
    (Fighter.heal s amount).1.parent.fighter.hp_stored =
      (if s.parent.fighter.hp_stored = s.parent.fighter.max_hp then
        s.parent.fighter.hp_stored
      else
        max 0 (min
          (if s.parent.fighter.hp_stored + amount > s.parent.fighter.max_hp
           then s.parent.fighter.max_hp
           else s.parent.fighter.hp_stored + amount)
          s.parent.fighter.max_hp)) := by
  rw [Fighter.heal]
  split
  · rfl
  · exact Fighter.set_hp_hp s _

theorem Fighter.heal_fst_max (s : FState) (amount : Int) :
    (Fighter.heal s amount).1.parent.fighter.max_hp =
      s.parent.fighter.max_hp := by
  rw [Fighter.heal]
  split
  · rfl
  · exact Fighter.set_hp_max s _

theorem MeleeAction.perform_hit_hp (attacker : Actor) (ip : Bool)
    (tgt : FState) :
    (MeleeAction.perform_hit attacker ip tgt).parent.fighter.hp_stored =
      max 0 (min
        (tgt.parent.fighter.hp_stored -
          (if Fighter.power attacker - Fighter.defense tgt.parent > 0
           then Fighter.power attacker - Fighter.defense tgt.parent else 1))
        tgt.parent.fighter.max_hp) := by
  rw [MeleeAction.perform_hit]
  split
  · dsimp only
    exact Fighter.set_hp_hp _ _
  · dsimp only
    exact Fighter.set_hp_hp _ _

theorem MeleeAction.perform_hit_max (attacker : Actor) (ip : Bool)
    (tgt : FState) :
    (MeleeAction.perform_hit attacker ip tgt).parent.fighter.max_hp =
      tgt.parent.fighter.max_hp := by
  rw [MeleeAction.perform_hit]
  split
  · exact Fighter.set_hp_max _ _
  · exact Fighter.set_hp_max _ _

theorem Level.increase_max_hp_fighter (s : FState) (amount : Int) :
    (Level.increase_max_hp s amount).parent.fighter.max_hp =
      s.parent.fighter.max_hp + amount ∧
    (Level.increase_max_hp s amount).parent.fighter.hp_stored =
      max 0 (min (s.parent.fighter.hp_stored + amount)
        (s.parent.fighter.max_hp + amount)) := by
  rw [Level.increase_max_hp]
  exact ⟨Fighter.set_hp_max _ _, Fighter.set_hp_hp _ _⟩

/-! ## Concrete fixtures used by the closed counterexample/witness theorems -/

def emptyLog : MessageLog := ⟨[]⟩

/-- fighter.py `Fighter.__init__`: full health, both countdowns and the temp
bonus start at 0. -/
def Fighter.init (hp base_defense base_power : Int) : Fighter :=
  ⟨hp, hp, base_defense, base_power, 0, 0, 0⟩

/-- The player prototype's Level (entity_factories.py: `level_up_base=200`,
`xp_given` defaulted to 0). -/
def playerLevelFx : Level := ⟨1, 0, 200, 150, 0⟩

/-- An orc-like test actor (entity_factories.py stats: hp 10, defense 0,
power 4, 40 XP given), currently at 5 hp. -/
def orcFx : Actor :=
  ⟨3, 4, "o", (63, 127, 63), "Orco", true, RenderOrder.ACTOR, true,
   ⟨10, 5, 0, 4, 0, 0, 0⟩, ⟨none, none⟩, ⟨1, 0, 0, 150, 40⟩, 0⟩

/-- The engine slice around `orcFx` as a non-player actor. -/
def orcFS : FState := ⟨orcFx, false, playerLevelFx, "Jugador", emptyLog⟩

/-! ## Claim C10 -/

/-- C10: `RevealHiddenWallAction.perform` can never complete normally: the
tile_types module defines no `hidden_wall_tile` attribute (its tile catalog is
exactly floor/wall/down_stairs/door, plus the SHROUD graphic), so every call
fails on that attribute lookup with an `AttributeError` — before any tile is
revealed or any Impossible is raised. -/
theorem C10_reveal_hidden_wall_unreachable (m : GameMap) (log : MessageLog)
    (tx ty : Int) :
    tile_types.tile_attr "hidden_wall_tile" = none ∧
    RevealHiddenWallAction.perform m log tx ty =
      .error (.attributeError "hidden_wall_tile") := by
  exact ⟨rfl, rfl⟩

/-! ## Claim C8 -/

/-- C8: `Fighter.activate_defense_bonus(bonus, turns)` adds `bonus` into
`temp_defense_bonus` (stacking across applications) and overwrites
`defense_bonus_turns` with `turns`; in particular `(5,10)` then `(3,4)` on a
freshly initialised Fighter yields temp bonus 8 and 4 remaining turns. -/
theorem C8_defense_bonus_stacks :
    (∀ (f : Fighter) (b1 t1 b2 t2 : Int),
      ((f.activate_defense_bonus b1 t1).activate_defense_bonus b2
          t2).temp_defense_bonus =
        f.temp_defense_bonus + b1 + b2 ∧
      ((f.activate_defense_bonus b1 t1).activate_defense_bonus b2
          t2).defense_bonus_turns = t2) ∧
    (((Fighter.init 30 1 2).activate_defense_bonus 5 10).activate_defense_bonus
        3 4).temp_defense_bonus = 8 ∧
    (((Fighter.init 30 1 2).activate_defense_bonus 5 10).activate_defense_bonus
        3 4).defense_bonus_turns = 4 := by
  refine ⟨fun f b1 t1 b2 t2 => ⟨rfl, rfl⟩, by decide, by decide⟩

/-! ## Claim C6 -/

/-- A hit-point-touching operation of the modelled code, as named by the
claim: direct property writes, `take_damage`, `heal`, a melee hit, and the
level-up max-HP increase. -/
inductive FOp
  | setHp (v : Int)
  | takeDamage (n : Int)
  | healOp (n : Int)
  | meleeFrom (attacker : Actor) (ip : Bool)
  | levelUpHp (n : Int)

/-- Run one operation on the fighter's engine slice. -/
def FOp.apply : FOp → FState → FState
  | .setHp v, s => Fighter.set_hp s v
  | .takeDamage n, s => Fighter.take_damage s n
  | .healOp n, s => (Fighter.heal s n).1
  | .meleeFrom a ip, s => MeleeAction.perform_hit a ip s
  | .levelUpHp n, s => Level.increase_max_hp s n

/-- The level-up HP increase is only ever invoked with its default amount 20
(LevelUpEventHandler); well-formed sequences use non-negative amounts there. -/
def FOp.wf : FOp → Prop
  | .levelUpHp n => 0 ≤ n
  | _ => True

/-- Fold a sequence of operations. -/
def FOp.applyAll (ops : List FOp) (s : FState) : FState :=
  ops.foldl (fun t op => FOp.apply op t) s

/-- The hp range invariant of the claim. -/
def hpInRange (s : FState) : Prop :=
  0 ≤ s.parent.fighter.max_hp ∧
  0 ≤ s.parent.fighter.hp_stored ∧
  s.parent.fighter.hp_stored ≤ s.parent.fighter.max_hp

theorem hpInRange_clamp (M v : Int) (hM : 0 ≤ M) :
    0 ≤ max 0 (min v M) ∧ max 0 (min v M) ≤ M :=
  ⟨le_max_left 0 _, max_le hM (min_le_right v M)⟩

theorem FOp.apply_preserves (op : FOp) (s : FState) (hwf : op.wf)
    (h : hpInRange s) : hpInRange (op.apply s) := by
  obtain ⟨hM, h0, h1⟩ := h
  cases op with
  | setHp v =>
      refine ⟨?_, ?_, ?_⟩
      · rw [FOp.apply, Fighter.set_hp_max]; exact hM
      · rw [FOp.apply, Fighter.set_hp_hp]; exact (hpInRange_clamp _ _ hM).1
      · rw [FOp.apply, Fighter.set_hp_hp, Fighter.set_hp_max]
        exact (hpInRange_clamp _ _ hM).2
  | takeDamage n =>
      refine ⟨?_, ?_, ?_⟩
      · rw [FOp.apply, Fighter.take_damage_max]; exact hM
      · rw [FOp.apply, Fighter.take_damage_hp]
        split
        · exact h0
        · exact (hpInRange_clamp _ _ hM).1
      · rw [FOp.apply, Fighter.take_damage_hp, Fighter.take_damage_max]
        split
        · exact h1
        · exact (hpInRange_clamp _ _ hM).2
  | healOp n =>
      refine ⟨?_, ?_, ?_⟩
      · rw [FOp.apply, Fighter.heal_fst_max]; exact hM
      · rw [FOp.apply, Fighter.heal_fst_hp]
        split
        · exact h0
        · exact (hpInRange_clamp _ _ hM).1
      · rw [FOp.apply, Fighter.heal_fst_hp, Fighter.heal_fst_max]
        split
        · exact h1
        · exact (hpInRange_clamp _ _ hM).2
  | meleeFrom a ip =>
      refine ⟨?_, ?_, ?_⟩
      · rw [FOp.apply, MeleeAction.perform_hit_max]; exact hM
      · rw [FOp.apply, MeleeAction.perform_hit_hp]
        exact (hpInRange_clamp _ _ hM).1
      · rw [FOp.apply, MeleeAction.perform_hit_hp,
          MeleeAction.perform_hit_max]
        exact (hpInRange_clamp _ _ hM).2
  | levelUpHp n =>
      have hMn : 0 ≤ s.parent.fighter.max_hp + n := by
        have : (0 : Int) ≤ n := hwf
        omega
      obtain ⟨hmax, hhp⟩ := Level.increase_max_hp_fighter s n
      refine ⟨?_, ?_, ?_⟩
      · rw [FOp.apply, hmax]; exact hMn
      · rw [FOp.apply, hhp]; exact (hpInRange_clamp _ _ hMn).1
      · rw [FOp.apply, hhp, hmax]; exact (hpInRange_clamp _ _ hMn).2

/-- C6: every write through the hp property stores `clamp(v, 0, max_hp)`, and
consequently any sequence of the hp-touching operations (direct writes,
take_damage, heal, melee damage, level-up HP increases by a non-negative
amount) keeps the stored hp inside `[0, max_hp]`. -/
theorem C6_hp_always_clamped :
    (∀ (s : FState) (v : Int),
      (Fighter.set_hp s v).parent.fighter.hp_stored =
        max 0 (min v s.parent.fighter.max_hp)) ∧
    (∀ (ops : List FOp) (s : FState), hpInRange s →
      (∀ op ∈ ops, FOp.wf op) → hpInRange (FOp.applyAll ops s)) := by
  refine ⟨Fighter.set_hp_hp, ?_⟩
  intro ops
  induction ops with
  | nil => intro s h _; exact h
  | cons op rest ih =>
      intro s h hwf
      rw [FOp.applyAll, List.foldl_cons]
      exact ih _ (FOp.apply_preserves op s (hwf op (by simp)) h)
        (fun o ho => hwf o (by simp [ho]))

/-- A player-like test actor (entity_factories.py stats: hp 30, defense 1,
power 2, level_up_base 200). -/
def playerFx : Actor :=
  ⟨0, 0, "@", (255, 255, 255), "Jugador", true, RenderOrder.ACTOR, true,
   Fighter.init 30 1 2, ⟨none, none⟩, playerLevelFx, 0⟩

/-- The engine slice around `playerFx` as the player. -/
def playerFS : FState := ⟨playerFx, true, playerLevelFx, "Jugador", emptyLog⟩

/-- C6 witness: with max HP 30 (the player prototype's), writing 45 stores 30
and writing −5 stores 0, and a concrete operation sequence keeps hp in
range. -/
theorem C6_hp_always_clamped_witness :
    ((Fighter.set_hp playerFS 45).parent.fighter.hp_stored = 30 ∧
     (Fighter.set_hp playerFS (-5)).parent.fighter.hp_stored = 0) ∧
    hpInRange (FOp.applyAll
      [FOp.setHp 45, FOp.takeDamage 7, FOp.healOp 3, FOp.levelUpHp 20,
       FOp.setHp (-5)] playerFS) := by
  refine ⟨⟨?_, ?_⟩, ?_⟩
  · exact (C6_hp_always_clamped.1 playerFS 45).trans (by decide)
  · exact (C6_hp_always_clamped.1 playerFS (-5)).trans (by decide)
  · refine C6_hp_always_clamped.2 _ playerFS
      ⟨by decide, by decide, by decide⟩ ?_
    intro op hop
    simp only [List.mem_cons, List.not_mem_nil, or_false] at hop
    rcases hop with h | h | h | h | h <;> subst h
    · exact True.intro
    · exact True.intro
    · exact True.intro
    · exact (by decide : (0 : Int) ≤ 20)
    · exact True.intro

/-! ## Claim C5 -/

/-- The player's Level component as seen from a Fighter's engine slice. -/
def FState.the_player_level (s : FState) : Level :=
  if s.is_player then s.parent.level else s.player_level

theorem Fighter.die_player_level (s : FState) :
    FState.the_player_level (Fighter.die s) =
      (if s.parent.level.xp_given = 0 ∨
          (FState.the_player_level s).level_up_base = 0
       then FState.the_player_level s
       else { FState.the_player_level s with current_xp :=
          (FState.the_player_level s).current_xp +
            s.parent.level.xp_given }) := by
  by_cases hp : s.is_player = true <;>
    simp [Fighter.die, FState.player_add_xp, FState.the_player_level, hp,
      Level.add_xp_fst]

/-- C5 counterexample: the orc-like actor at 5 hp, driven to 0 through
`take_damage(5)`, goes through the death transition (AI absent, corpse glyph
and render order) but its name stays "Orco" — it is NOT renamed to
"Restos de Orco" as the claim states. -/
theorem C5_counterexample :
    (Fighter.take_damage orcFS 5).parent.ai = false ∧
    (Fighter.take_damage orcFS 5).parent.char = "%" ∧
    (Fighter.take_damage orcFS 5).parent.render_order = RenderOrder.CORPSE ∧
    (Fighter.take_damage orcFS 5).parent.name = "Orco" ∧
    ¬ (Fighter.take_damage orcFS 5).parent.name = "Restos de Orco" := by
  refine ⟨rfl, rfl, rfl, rfl, ?_⟩
  decide

/-- C5 (amended): whenever a write drives the stored hp to 0 while the actor
still has an AI, the death transition sets glyph `%`, color (191,0,0),
`blocks_movement = false`, AI absent and render order CORPSE, logs the death
message ("Has muerto" for the player, "`<name>` esta muerto" otherwise) and
awards the player's Level `xp_given` XP through `add_xp` — but the actor's
name is left unchanged (there is no "Restos de ..." rename).  A write that
clamps to a positive value changes nothing but the stored hp. -/
theorem C5_death_transition (s : FState) (v : Int) :
    (max 0 (min v s.parent.fighter.max_hp) = 0 → s.parent.ai = true →
      (Fighter.set_hp s v).parent.char = "%" ∧
      (Fighter.set_hp s v).parent.color = ((191 : Int), (0 : Int), (0 : Int)) ∧
      (Fighter.set_hp s v).parent.blocks_movement = false ∧
      (Fighter.set_hp s v).parent.ai = false ∧
      (Fighter.set_hp s v).parent.render_order = RenderOrder.CORPSE ∧
      (Fighter.set_hp s v).parent.name = s.parent.name ∧
      (Fighter.set_hp s v).parent.fighter.hp_stored = 0 ∧
      ((if s.is_player then "Has muerto"
        else s.parent.name ++ " esta muerto") ∈
          (Fighter.set_hp s v).message_log.texts) ∧
      FState.the_player_level (Fighter.set_hp s v) =
        (if s.parent.level.xp_given = 0 ∨
            (FState.the_player_level s).level_up_base = 0
         then FState.the_player_level s
         else { FState.the_player_level s with current_xp :=
            (FState.the_player_level s).current_xp +
              s.parent.level.xp_given })) ∧
    (0 < max 0 (min v s.parent.fighter.max_hp) →
      Fighter.set_hp s v =
        { s with parent := { s.parent with fighter :=
            { s.parent.fighter with
                hp_stored := max 0 (min v s.parent.fighter.max_hp) } } }) := by
  constructor
  · intro h0 hai
    rw [Fighter.set_hp_of_zero s v h0 hai]
    set s2 : FState := { s with parent := { s.parent with fighter :=
      { s.parent.fighter with hp_stored := 0 } } } with hs2
    obtain ⟨hc1, hc2, hc3, hc4, hc5, hc6⟩ := Fighter.die_parent_fields s2
    refine ⟨hc1, hc2, hc3, hc4, hc5, hc6, ?_, ?_, ?_⟩
    · rw [Fighter.die_parent_fighter]
    · exact Fighter.die_msg_mem s2
    · exact Fighter.die_player_level s2
  · intro hpos
    exact Fighter.set_hp_of_pos s v (by omega)

/-- C5 witness: the concrete orc-like actor at 5 hp with a `set_hp 0` write
dies with its fields transitioned and name unchanged, and a `set_hp 1` write
only stores 1. -/
theorem C5_death_transition_witness :
    ((Fighter.set_hp orcFS 0).parent.char = "%" ∧
     (Fighter.set_hp orcFS 0).parent.color =
       ((191 : Int), (0 : Int), (0 : Int)) ∧
     (Fighter.set_hp orcFS 0).parent.blocks_movement = false ∧
     (Fighter.set_hp orcFS 0).parent.ai = false ∧
     (Fighter.set_hp orcFS 0).parent.render_order = RenderOrder.CORPSE ∧
     (Fighter.set_hp orcFS 0).parent.name = orcFS.parent.name ∧
     (Fighter.set_hp orcFS 0).parent.fighter.hp_stored = 0 ∧
     ((if orcFS.is_player then "Has muerto"
       else orcFS.parent.name ++ " esta muerto") ∈
         (Fighter.set_hp orcFS 0).message_log.texts) ∧
     FState.the_player_level (Fighter.set_hp orcFS 0) =
       (if orcFS.parent.level.xp_given = 0 ∨
           (FState.the_player_level orcFS).level_up_base = 0
        then FState.the_player_level orcFS
        else { FState.the_player_level orcFS with current_xp :=
           (FState.the_player_level orcFS).current_xp +
             orcFS.parent.level.xp_given })) ∧
    Fighter.set_hp orcFS 1 =
      { orcFS with parent := { orcFS.parent with fighter :=
          { orcFS.parent.fighter with
              hp_stored := max 0 (min 1 orcFS.parent.fighter.max_hp) } } } :=
  ⟨(C5_death_transition orcFS 0).1 (by decide) (by decide),
   (C5_death_transition orcFS 1).2 (by decide)⟩

/-! ## Claim C1 -/

/-- A troll-like defender (entity_factories.py troll: hp 16, defense 1, power
5; here with base defense raised to 5 by the scenario of the claim's second
example), currently at 5 hp. -/
def tankFx : Actor :=
  ⟨1, 0, "T", (0, 127, 0), "Troll", true, RenderOrder.ACTOR, true,
   ⟨16, 5, 5, 4, 0, 0, 0⟩, ⟨none, none⟩, ⟨1, 0, 0, 150, 100⟩, 0⟩

/-- The engine slice around `tankFx`. -/
def tankFS : FState := ⟨tankFx, false, playerLevelFx, "Jugador", emptyLog⟩

/-- An attacker with power 6 for the claim's first example. -/
def strongFx : Actor :=
  ⟨0, 0, "@", (255, 255, 255), "Jugador", true, RenderOrder.ACTOR, true,
   ⟨30, 30, 1, 6, 0, 0, 0⟩, ⟨none, none⟩, playerLevelFx, 0⟩

/-- A defender with defense 2 and 10 hp for the claim's first example. -/
def victimFx : Actor :=
  ⟨1, 0, "o", (63, 127, 63), "Orco", true, RenderOrder.ACTOR, true,
   ⟨10, 10, 2, 4, 0, 0, 0⟩, ⟨none, none⟩, ⟨1, 0, 0, 150, 40⟩, 0⟩

/-- The engine slice around `victimFx`. -/
def victimFS : FState := ⟨victimFx, false, playerLevelFx, "Jugador", emptyLog⟩

/-- C1 counterexample: attacker power 2 against defender defense 5 (damage
−3 ≤ 0).  The claim says a "no afecta" line is logged and the target's HP is
unchanged; the code instead logs "... Hace 1 punto de dano." and deals exactly
1 damage (hp 5 → 4). -/
theorem C1_counterexample :
    (MeleeAction.perform_hit playerFx true tankFS).parent.fighter.hp_stored
      = 4 ∧
    (MeleeAction.perform_hit playerFx true tankFS).message_log.texts =
      ["Jugador ataca a Troll. Hace 1 punto de dano."] := by
  constructor
  · decide
  · decide

/-- C1 (amended): a MeleeAction with a target actor at the destination deals
`attacker power − defender defense` through the clamping hp setter when that
difference is positive, logging the numeric attack line; when the difference
is zero or negative it deals exactly 1 point of damage instead (a guaranteed
minimum-1-damage hit), logging "... Hace 1 punto de dano." — there is no
"no afecta" line and the target's HP does change.  With no target it raises
Impossible "Nada a lo que atacar.". -/
theorem C1_melee_min1_damage (attacker : Actor) (ip : Bool) (tgt : FState) :
    MeleeAction.perform attacker ip (some tgt) =
      .ok (MeleeAction.perform_hit attacker ip tgt) ∧
    MeleeAction.perform attacker ip none =
      .error ⟨"Nada a lo que atacar."⟩ ∧
    (Fighter.power attacker - Fighter.defense tgt.parent > 0 →
      (MeleeAction.perform_hit attacker ip tgt).parent.fighter.hp_stored =
        max 0 (min (tgt.parent.fighter.hp_stored -
            (Fighter.power attacker - Fighter.defense tgt.parent))
          tgt.parent.fighter.max_hp) ∧
      (pyCapitalize attacker.name ++ " ataca a " ++ tgt.parent.name ++ "." ++
          " Hace " ++
          toString (Fighter.power attacker - Fighter.defense tgt.parent) ++
          " puntos de dano.") ∈
        (MeleeAction.perform_hit attacker ip tgt).message_log.texts) ∧
    (Fighter.power attacker - Fighter.defense tgt.parent ≤ 0 →
      (MeleeAction.perform_hit attacker ip tgt).parent.fighter.hp_stored =
        max 0 (min (tgt.parent.fighter.hp_stored - 1)
          tgt.parent.fighter.max_hp) ∧
      (pyCapitalize attacker.name ++ " ataca a " ++ tgt.parent.name ++ "." ++
          " Hace 1 punto de dano.") ∈
        (MeleeAction.perform_hit attacker ip tgt).message_log.texts) := by
  refine ⟨rfl, rfl, ?_, ?_⟩
  · intro hd
    constructor
    · rw [MeleeAction.perform_hit_hp, if_pos hd]
    · rw [MeleeAction.perform_hit]
      dsimp only
      rw [if_pos hd]
      exact Fighter.set_hp_texts_mono _ (MessageLog.mem_texts_add_self _ _ _ _)
  · intro hd
    constructor
    · rw [MeleeAction.perform_hit_hp, if_neg (not_lt.mpr hd)]
    · rw [MeleeAction.perform_hit]
      dsimp only
      rw [if_neg (not_lt.mpr hd)]
      exact Fighter.set_hp_texts_mono _ (MessageLog.mem_texts_add_self _ _ _ _)

/-- C1 witness: power 6 vs defense 2 deals 4 (hp 10 → 6) with the numeric
attack line; power 2 vs defense 5 deals the minimum 1 (hp 5 → 4) with the
1-point line. -/
theorem C1_melee_min1_damage_witness :
    ((MeleeAction.perform_hit strongFx true victimFS).parent.fighter.hp_stored
        = max 0 (min (victimFS.parent.fighter.hp_stored -
            (Fighter.power strongFx - Fighter.defense victimFS.parent))
          victimFS.parent.fighter.max_hp) ∧
      (pyCapitalize strongFx.name ++ " ataca a " ++ victimFS.parent.name ++
          "." ++ " Hace " ++
          toString (Fighter.power strongFx - Fighter.defense victimFS.parent)
          ++ " puntos de dano.") ∈
        (MeleeAction.perform_hit strongFx true victimFS).message_log.texts) ∧
    ((MeleeAction.perform_hit playerFx true tankFS).parent.fighter.hp_stored =
        max 0 (min (tankFS.parent.fighter.hp_stored - 1)
          tankFS.parent.fighter.max_hp) ∧
      (pyCapitalize playerFx.name ++ " ataca a " ++ tankFS.parent.name ++ "."
          ++ " Hace 1 punto de dano.") ∈
        (MeleeAction.perform_hit playerFx true tankFS).message_log.texts) :=
  ⟨(C1_melee_min1_damage strongFx true victimFS).2.2.1 (by decide),
   (C1_melee_min1_damage playerFx true tankFS).2.2.2 (by decide)⟩

/-! ## Claim C2 -/

/-- A 5×5 all-floor map with no entities. -/
def flatMap5 : GameMap := ⟨5, 5, fun _ _ => tile_types.floor, []⟩

/-- A 5×5 map whose tile (1,0) is a wall. -/
def wallMap5 : GameMap :=
  ⟨5, 5,
   fun x y => if x = 1 ∧ y = 0 then tile_types.wall else tile_types.floor,
   []⟩

/-- A 5×5 all-floor map with a blocking entity at (1,0). -/
def blockMap5 : GameMap := ⟨5, 5, fun _ _ => tile_types.floor, [⟨1, 0, true⟩]⟩

/-- C2 counterexample: moving off the map edge (destination (−1,0), out of
bounds) does NOT raise Impossible — `MovementAction.perform` returns normally,
logging "Esto es una pared." itself and leaving the position unchanged. -/
theorem C2_counterexample :
    MovementAction.perform flatMap5 ⟨0, 0⟩ (-1) 0 emptyLog =
      .ok (⟨0, 0⟩, ⟨[⟨"Esto es una pared.", color.impossible, 1⟩]⟩) := by
  rfl

/-- C2 (amended): `MovementAction.perform` never raises Impossible.  An
out-of-bounds or non-walkable destination logs "Esto es una pared." in the
impossible tint and leaves the position unchanged; a destination occupied by
a blocking entity returns silently (no message, position unchanged); an empty
walkable in-bounds destination moves the entity by exactly (dx, dy). -/
theorem C2_movement_never_raises (m : GameMap) (e : MoverPos) (dx dy : Int)
    (log : MessageLog) :
    (m.in_bounds (e.x + dx) (e.y + dy) = false →
      MovementAction.perform m e dx dy log =
        .ok (e, log.add_message "Esto es una pared." color.impossible true)) ∧
    (m.in_bounds (e.x + dx) (e.y + dy) = true →
      (m.tiles (e.x + dx) (e.y + dy)).walkable = false →
      MovementAction.perform m e dx dy log =
        .ok (e, log.add_message "Esto es una pared." color.impossible true)) ∧
    (m.in_bounds (e.x + dx) (e.y + dy) = true →
      (m.tiles (e.x + dx) (e.y + dy)).walkable = true →
      (m.get_blocking_entity_at_location (e.x + dx) (e.y + dy)).isSome
        = true →
      MovementAction.perform m e dx dy log = .ok (e, log)) ∧
    (m.in_bounds (e.x + dx) (e.y + dy) = true →
      (m.tiles (e.x + dx) (e.y + dy)).walkable = true →
      (m.get_blocking_entity_at_location (e.x + dx) (e.y + dy)).isSome
        = false →
      MovementAction.perform m e dx dy log =
        .ok (⟨e.x + dx, e.y + dy⟩, log)) := by
  refine ⟨?_, ?_, ?_, ?_⟩
  · intro h1
    simp [MovementAction.perform, h1]
  · intro h1 h2
    simp [MovementAction.perform, h1, h2]
  · intro h1 h2 h3
    simp [MovementAction.perform, h1, h2, h3]
  · intro h1 h2 h3
    simp [MovementAction.perform, h1, h2, h3]

/-- C2 witness: the four cases at concrete inputs on the three concrete
maps. -/
theorem C2_movement_never_raises_witness :
    (MovementAction.perform flatMap5 ⟨0, 0⟩ 0 (-1) emptyLog =
      .ok (⟨0, 0⟩, emptyLog.add_message "Esto es una pared."
        color.impossible true)) ∧
    (MovementAction.perform wallMap5 ⟨0, 0⟩ 1 0 emptyLog =
      .ok (⟨0, 0⟩, emptyLog.add_message "Esto es una pared."
        color.impossible true)) ∧
    (MovementAction.perform blockMap5 ⟨0, 0⟩ 1 0 emptyLog =
      .ok (⟨0, 0⟩, emptyLog)) ∧
    (MovementAction.perform flatMap5 ⟨0, 0⟩ 1 0 emptyLog =
      .ok (⟨1, 0⟩, emptyLog)) :=
  ⟨(C2_movement_never_raises flatMap5 ⟨0, 0⟩ 0 (-1) emptyLog).1 (by decide),
   (C2_movement_never_raises wallMap5 ⟨0, 0⟩ 1 0 emptyLog).2.1 (by decide)
     (by decide),
   (C2_movement_never_raises blockMap5 ⟨0, 0⟩ 1 0 emptyLog).2.2.1 (by decide)
     (by decide) (by decide),
   (C2_movement_never_raises flatMap5 ⟨0, 0⟩ 1 0 emptyLog).2.2.2 (by decide)
     (by decide) (by decide)⟩

/-! ## Claim C7 -/

/-- A trivial FOV function instance (the toolkit's compute_fov is external;
this stands in for it in closed theorems). -/
def noFov : FovFn := fun _ _ => fun _ _ => false

/-- An AI behaviour instance that does nothing on its turn (a WaitAction-only
AI). -/
def idleAI : AIStep := fun _ s => .ok s

/-- A player currently under the defensive-scroll damage-immunity effect
(`defensive_turns = 2`). -/
def guardedPlayerFx : Actor :=
  ⟨0, 0, "@", (255, 255, 255), "Jugador", true, RenderOrder.ACTOR, true,
   ⟨30, 30, 1, 2, 2, 0, 0⟩, ⟨none, none⟩, playerLevelFx, 0⟩

/-- An engine slice with the guarded player and no enemies. -/
def hengineC7 : HEngine :=
  ⟨guardedPlayerFx, [], emptyLog, "Jugador", [],
   fun _ _ => false, fun _ _ => false⟩

/-- An actor whose temporary defense bonus is about to expire
(`defense_bonus_turns = 1`, `temp_defense_bonus = 5`). -/
def expiringFx : Actor :=
  ⟨0, 0, "@", (255, 255, 255), "Jugador", true, RenderOrder.ACTOR, true,
   ⟨30, 30, 1, 2, 0, 1, 5⟩, ⟨none, none⟩, playerLevelFx, 0⟩

/-- C7 counterexample: a successful WaitAction executed through the base
`EventHandler.handle_action` (the wrapper the inventory/targeting handlers
inherit) advances the turn but does NOT invoke the player's `on_turn_end`:
`defensive_turns` stays at 2 instead of dropping to 1 as the claim
requires. -/
theorem C7_counterexample :
    advancedOf (EventHandler.handle_action idleAI noFov hengineC7
      (some WaitAction.perform)) = some true ∧
    wrapDefTurnsOf (EventHandler.handle_action idleAI noFov hengineC7
      (some WaitAction.perform)) = some 2 := by
  exact ⟨rfl, rfl⟩

/-- C7 (amended): only `MainGameEventHandler.handle_action` invokes the
player's `on_turn_end` (exactly once, between the successful action and the
enemy turns); the base `EventHandler.handle_action`, used by every other
in-game handler, advances the turn without it.  `on_turn_end` itself
decrements `defensive_turns` and `defense_bonus_turns` when positive and,
when the resulting `defense_bonus_turns` is 0 while a positive temp bonus is
held, logs the "piel vuelve a la normalidad" line and clears the bonus,
otherwise leaves the bonus and the log untouched. -/
theorem C7_on_turn_end_main_game_only :
    (∀ (aiStep : AIStep) (fovFn : FovFn) (s s1 : HEngine) (act : GAction),
      act s = .ok s1 →
      MainGameEventHandler.handle_action aiStep fovFn s (some act) =
        (match Engine.handle_enemy_turns aiStep
            { s1 with
              player := (Fighter.on_turn_end s1.player s1.message_log).1,
              message_log :=
                (Fighter.on_turn_end s1.player s1.message_log).2 } with
         | .error exc => .error exc
         | .ok s2 => .ok (Engine.update_fov fovFn s2, true)) ∧
      EventHandler.handle_action aiStep fovFn s (some act) =
        (match Engine.handle_enemy_turns aiStep s1 with
         | .error exc => .error exc
         | .ok s2 => .ok (Engine.update_fov fovFn s2, true))) ∧
    (∀ (a : Actor) (log : MessageLog),
      (Fighter.on_turn_end a log).1.fighter.defensive_turns =
        (if a.fighter.defensive_turns > 0 then a.fighter.defensive_turns - 1
         else a.fighter.defensive_turns) ∧
      (Fighter.on_turn_end a log).1.fighter.defense_bonus_turns =
        (if a.fighter.defense_bonus_turns > 0 then
          a.fighter.defense_bonus_turns - 1
         else a.fighter.defense_bonus_turns) ∧
      ((if a.fighter.defense_bonus_turns > 0 then
          a.fighter.defense_bonus_turns - 1
        else a.fighter.defense_bonus_turns) = 0 ∧
          a.fighter.temp_defense_bonus > 0 →
        (Fighter.on_turn_end a log).1.fighter.temp_defense_bonus = 0 ∧
        (a.name ++ " siente que su piel vuelve a la normalidad.") ∈
          (Fighter.on_turn_end a log).2.texts) ∧
      (¬ ((if a.fighter.defense_bonus_turns > 0 then
            a.fighter.defense_bonus_turns - 1
          else a.fighter.defense_bonus_turns) = 0 ∧
            a.fighter.temp_defense_bonus > 0) →
        (Fighter.on_turn_end a log).1.fighter.temp_defense_bonus =
          a.fighter.temp_defense_bonus ∧
        (Fighter.on_turn_end a log).2 = log)) := by
  constructor
  · intro aiStep fovFn s s1 act h
    constructor
    · rw [MainGameEventHandler.handle_action, h]
    · rw [EventHandler.handle_action, h]
  · intro a log
    rw [Fighter.on_turn_end]
    dsimp only
    refine ⟨?_, ?_, ?_, ?_⟩
    · split <;> split <;> rfl
    · split <;> split <;> rfl
    · intro hc
      rw [if_pos hc]
      exact ⟨rfl, MessageLog.mem_texts_add_self _ _ _ _⟩
    · intro hc
      rw [if_neg hc]
      exact ⟨rfl, rfl⟩

/-- C7 witness: the two wrappers at a concrete successful action (only the
main-game one runs `on_turn_end`), the bonus-expiry case at a concrete actor,
and the no-change case at another. -/
theorem C7_on_turn_end_main_game_only_witness :
    (MainGameEventHandler.handle_action idleAI noFov hengineC7
        (some WaitAction.perform) =
      (match Engine.handle_enemy_turns idleAI
          { hengineC7 with
            player := (Fighter.on_turn_end hengineC7.player
              hengineC7.message_log).1,
            message_log := (Fighter.on_turn_end hengineC7.player
              hengineC7.message_log).2 } with
       | .error exc => .error exc
       | .ok s2 => .ok (Engine.update_fov noFov s2, true)) ∧
     EventHandler.handle_action idleAI noFov hengineC7
        (some WaitAction.perform) =
      (match Engine.handle_enemy_turns idleAI hengineC7 with
       | .error exc => .error exc
       | .ok s2 => .ok (Engine.update_fov noFov s2, true))) ∧
    ((Fighter.on_turn_end expiringFx emptyLog).1.fighter.temp_defense_bonus
        = 0 ∧
      (expiringFx.name ++ " siente que su piel vuelve a la normalidad.") ∈
        (Fighter.on_turn_end expiringFx emptyLog).2.texts) ∧
    ((Fighter.on_turn_end guardedPlayerFx emptyLog).1.fighter.temp_defense_bonus
        = guardedPlayerFx.fighter.temp_defense_bonus ∧
      (Fighter.on_turn_end guardedPlayerFx emptyLog).2 = emptyLog) :=
  ⟨C7_on_turn_end_main_game_only.1 idleAI noFov hengineC7 hengineC7
      WaitAction.perform rfl,
   (C7_on_turn_end_main_game_only.2 expiringFx emptyLog).2.2.1 (by decide),
   (C7_on_turn_end_main_game_only.2 guardedPlayerFx emptyLog).2.2.2
     (by decide)⟩

/-! ## Claim C3 -/

/-- The state after a wrapper (or `ItemAction.perform` itself) logs a caught
Impossible's message in the impossible tint. -/
def logImpossible (s : HEngine) (exc : Impossible) : HEngine :=
  { s with message_log :=
      s.message_log.add_message exc.msg color.impossible true }

/-- The state after running the player Fighter's `on_turn_end` (the step the
main-game wrapper inserts before enemy turns). -/
def onTurnEndPlayer (s : HEngine) : HEngine :=
  { s with player := (Fighter.on_turn_end s.player s.message_log).1,
           message_log := (Fighter.on_turn_end s.player s.message_log).2 }

/-- A player at full health (so a healing potion raises Impossible) who is
also invisible for 2 more turns (so the enemy-turn phase has an observable
effect). -/
def invisPlayerFx : Actor :=
  ⟨0, 0, "@", (255, 255, 255), "Jugador", true, RenderOrder.ACTOR, true,
   Fighter.init 30 1 2, ⟨none, none⟩, playerLevelFx, 2⟩

/-- The engine slice for the C3 scenario: the item with identifier 5 is in
the inventory. -/
def hengineC3 : HEngine :=
  ⟨invisPlayerFx, [], emptyLog, "Jugador", [5],
   fun _ _ => false, fun _ _ => false⟩

/-- C3 counterexample: using a healing potion at full health raises
Impossible inside the consumable — but `ItemAction.perform` catches it
locally, so the main-game wrapper sees a *successful* action: the turn
advances (`true`), the message was logged by ItemAction itself, and the
enemy-turn phase ran (the invisibility counter dropped from 2 to 1).  The
claim's "a failed consumable activation never counts as a completed player
turn" is false on the code. -/
theorem C3_counterexample :
    advancedOf (MainGameEventHandler.handle_action idleAI noFov hengineC3
      (some (ItemAction.perform
        (some (HealingConsumable.activate 5 5))))) = some true ∧
    wrapTextsOf (MainGameEventHandler.handle_action idleAI noFov hengineC3
      (some (ItemAction.perform
        (some (HealingConsumable.activate 5 5))))) =
      some ["Tienes la vida al maximo."] ∧
    wrapInvisOf (MainGameEventHandler.handle_action idleAI noFov hengineC3
      (some (ItemAction.perform
        (some (HealingConsumable.activate 5 5))))) = some 1 := by
  exact ⟨rfl, rfl, rfl⟩

/-- C3 (amended): `ItemAction.perform` catches an Impossible raised by the
item's Consumable activation itself, logging the carried message in the
impossible tint and returning normally — the exception never reaches the
event handler's wrapper.  Consequently both wrappers treat the failed
activation as a successful action: whenever the following enemy-turn phase
completes, they report the turn as advanced (enemy turns and the FOV
recompute do happen). -/
theorem C3_itemaction_catches_impossible
    (activate : HEngine → Except Impossible HEngine) (s : HEngine)
    (exc : Impossible) (h : activate s = .error exc) :
    ItemAction.perform (some activate) s = .ok (logImpossible s exc) ∧
    (∀ (aiStep : AIStep) (fovFn : FovFn) (s2 : HEngine),
      Engine.handle_enemy_turns aiStep (logImpossible s exc) = .ok s2 →
      EventHandler.handle_action aiStep fovFn s
          (some (ItemAction.perform (some activate))) =
        .ok (Engine.update_fov fovFn s2, true)) ∧
    (∀ (aiStep : AIStep) (fovFn : FovFn) (s2 : HEngine),
      Engine.handle_enemy_turns aiStep
          (onTurnEndPlayer (logImpossible s exc)) = .ok s2 →
      MainGameEventHandler.handle_action aiStep fovFn s
          (some (ItemAction.perform (some activate))) =
        .ok (Engine.update_fov fovFn s2, true)) := by
  have hperf : ItemAction.perform (some activate) s =
      .ok (logImpossible s exc) := by
    rw [ItemAction.perform, h]
    rfl
  refine ⟨hperf, ?_, ?_⟩
  · intro aiStep fovFn s2 hok
    rw [EventHandler.handle_action, hperf]
    dsimp only
    rw [hok]
  · intro aiStep fovFn s2 hok
    rw [MainGameEventHandler.handle_action, hperf]
    dsimp only
    rw [show ({ logImpossible s exc with
        player := (Fighter.on_turn_end (logImpossible s exc).player
          (logImpossible s exc).message_log).1,
        message_log := (Fighter.on_turn_end (logImpossible s exc).player
          (logImpossible s exc).message_log).2 } : HEngine) =
      onTurnEndPlayer (logImpossible s exc) from rfl, hok]

/-- C3 witness: the amended behaviour at the concrete C3 scenario. -/
theorem C3_itemaction_catches_impossible_witness :
    ItemAction.perform (some (HealingConsumable.activate 5 5)) hengineC3 =
      .ok (logImpossible hengineC3 ⟨"Tienes la vida al maximo."⟩) ∧
    MainGameEventHandler.handle_action idleAI noFov hengineC3
        (some (ItemAction.perform (some (HealingConsumable.activate 5 5)))) =
      .ok (Engine.update_fov noFov
        (Engine.invisibility_step
          (onTurnEndPlayer
            (logImpossible hengineC3 ⟨"Tienes la vida al maximo."⟩))), true) :=
  ⟨(C3_itemaction_catches_impossible (HealingConsumable.activate 5 5)
      hengineC3 ⟨"Tienes la vida al maximo."⟩ rfl).1,
   (C3_itemaction_catches_impossible (HealingConsumable.activate 5 5)
      hengineC3 ⟨"Tienes la vida al maximo."⟩ rfl).2.2 idleAI noFov _ rfl⟩

/-! ## Claim C4 -/

theorem Engine.invisibility_step_enemies (s : HEngine) :
    (Engine.invisibility_step s).enemies = s.enemies := by
  rw [Engine.invisibility_step]
  split
  · dsimp only
    split <;> rfl
  · rfl

theorem enemyTurnLoop_error_propagates (aiStep : AIStep) (e : Actor)
    (exc : Impossible) (post : List Actor) (he : e.ai = true) :
    ∀ (pre : List Actor) (s s1 : HEngine),
      enemyTurnLoop aiStep pre s = .ok s1 → aiStep e s1 = .error exc →
      enemyTurnLoop aiStep (pre ++ e :: post) s = .error exc := by
  intro pre
  induction pre with
  | nil =>
      intro s s1 h1 h2
      rw [enemyTurnLoop] at h1
      cases h1
      rw [List.nil_append, enemyTurnLoop, he]
      simp only [if_true]
      rw [h2]
  | cons a rest ih =>
      intro s s1 h1 h2
      rw [enemyTurnLoop] at h1
      rw [List.cons_append, enemyTurnLoop]
      by_cases ha : a.ai = true
      · rw [ha] at h1 ⊢
        simp only [if_true] at h1 ⊢
        cases hstep : aiStep a s with
        | error exc2 =>
            rw [hstep] at h1
            dsimp only at h1
            exact Except.noConfusion h1
        | ok s3 =>
            rw [hstep] at h1
            dsimp only at h1 ⊢
            exact ih s3 s1 h1 h2
      · rw [Bool.not_eq_true] at ha
        rw [ha] at h1 ⊢
        simp only [Bool.false_eq_true, if_false] at h1 ⊢
        exact ih s s1 h1 h2

/-- C4 (amended): the enemy-turn driver contains no Impossible handler at
all: whenever the AI `perform()` of some enemy in the iteration raises
Impossible (after the enemies before it completed normally), the exception
propagates out of `handle_enemy_turns` unchanged, and the enemies after it
never get their turns (their effects are absent from the result). -/
theorem C4_ai_impossible_propagates (aiStep : AIStep) (s : HEngine)
    (pre post : List Actor) (e : Actor) (s1 : HEngine) (exc : Impossible)
    (h1 : s.enemies = pre ++ e :: post)
    (h2 : enemyTurnLoop aiStep pre (Engine.invisibility_step s) = .ok s1)
    (h3 : e.ai = true) (h4 : aiStep e s1 = .error exc) :
    Engine.handle_enemy_turns aiStep s = .error exc := by
  rw [Engine.handle_enemy_turns, Engine.invisibility_step_enemies, h1]
  exact enemyTurnLoop_error_propagates aiStep e exc post h3 pre _ s1 h2 h4

/-- A hostile-looking enemy named "A", whose modelled AI turn raises
Impossible. -/
def aActorFx : Actor :=
  ⟨2, 2, "o", (63, 127, 63), "A", true, RenderOrder.ACTOR, true,
   ⟨10, 10, 0, 4, 0, 0, 0⟩, ⟨none, none⟩, ⟨1, 0, 0, 150, 40⟩, 0⟩

/-- A second enemy named "B" that logs its name when its turn runs. -/
def bActorFx : Actor :=
  ⟨3, 3, "o", (63, 127, 63), "B", true, RenderOrder.ACTOR, true,
   ⟨10, 10, 0, 4, 0, 0, 0⟩, ⟨none, none⟩, ⟨1, 0, 0, 150, 40⟩, 0⟩

/-- An AI behaviour instance under which actor "A" fails its turn with an
Impossible (e.g. a blocked move) while every other actor acts and logs its
name. -/
def failingAI : AIStep := fun a s =>
  if a.name = "A" then .error ⟨"Imposible."⟩
  else .ok { s with message_log :=
    s.message_log.add_message a.name color.white true }

/-- The engine slice with enemies A then B. -/
def hengineC4 : HEngine :=
  ⟨playerFx, [aActorFx, bActorFx], emptyLog, "Jugador", [],
   fun _ _ => false, fun _ _ => false⟩

/-- C4 counterexample: with enemy A's AI raising an Impossible, the driver
returns that error — nothing inside `handle_enemy_turns` catches it, and
enemy B's turn (which would have logged "B") never happens.  Under the claim
the result would have been a normal completion with B's log line. -/
theorem C4_counterexample :
    Engine.handle_enemy_turns failingAI hengineC4 = .error ⟨"Imposible."⟩ := by
  rfl

/-- C4 witness: the propagation theorem at the concrete scenario (empty
prefix, A failing, B after it). -/
theorem C4_ai_impossible_propagates_witness :
    Engine.handle_enemy_turns failingAI hengineC4 = .error ⟨"Imposible."⟩ :=
  C4_ai_impossible_propagates failingAI hengineC4 [] [bActorFx] aActorFx
    hengineC4 ⟨"Imposible."⟩ rfl rfl rfl rfl

/-! ## Claim C9 -/

/-- An enemy qualifies for the lightning strike when it stands on a visible
tile and its (exact real) distance is strictly below `maximum_range + 1`. -/
def lightningQual (s : HEngine) (R : Int) (a : Actor) : Prop :=
  s.visible a.x a.y = true ∧ 0 < R + 1 ∧ dist2 s a < (R + 1) ^ 2

instance lightningQualDec (s : HEngine) (R : Int) (a : Actor) :
    Decidable (lightningQual s R a) :=
  inferInstanceAs (Decidable (_ ∧ _ ∧ _))

/-- Invariant of the selection loop's accumulator: either still the initial
bound, or a qualified target paired with its own squared distance. -/
def lightningInv (s : HEngine) (R : Int) :
    Option (Nat × Actor) → Option Int → Prop
  | none, none => True
  | some ia, some c2 => c2 = dist2 s ia.2 ∧ lightningQual s R ia.2
  | _, _ => False

theorem lightningLoop_ne_none (s : HEngine) (R : Int) :
    ∀ (L : List (Nat × Actor)) (ia : Nat × Actor) (closest : Option Int),
      lightningLoop s R L (some ia) closest ≠ none := by
  intro L
  induction L with
  | nil =>
      intro ia closest h
      rw [lightningLoop] at h
      exact Option.noConfusion h
  | cons hd rest ih =>
      intro ia closest h
      obtain ⟨idx, a⟩ := hd
      rw [lightningLoop] at h
      split at h
      · split at h
        · exact ih _ _ h
        · exact ih _ _ h
      · exact ih _ _ h

theorem lightningInv_step (s : HEngine) (R : Int) {tgt : Option (Nat × Actor)}
    {closest : Option Int} (hinv : lightningInv s R tgt closest) {a : Actor}
    (idx : Nat) (hvis : s.visible a.x a.y = true)
    (hlt : closerThan R (dist2 s a) closest) :
    lightningInv s R (some (idx, a)) (some (dist2 s a)) := by
  cases closest with
  | none => exact ⟨rfl, hvis, hlt.1, hlt.2⟩
  | some c2 =>
      cases tgt with
      | none => exact hinv.elim
      | some jb =>
          have hbound : dist2 s a < (R + 1) ^ 2 :=
            lt_trans (lt_of_lt_of_eq hlt hinv.1) hinv.2.2.2
          exact ⟨rfl, hvis, hinv.2.2.1, hbound⟩

theorem lightningLoop_qual (s : HEngine) (R : Int) :
    ∀ (L : List (Nat × Actor)) (tgt : Option (Nat × Actor))
      (closest : Option Int), lightningInv s R tgt closest →
      ∀ ia, lightningLoop s R L tgt closest = some ia →
        lightningQual s R ia.2 := by
  intro L
  induction L with
  | nil =>
      intro tgt closest hinv ia h
      rw [lightningLoop] at h
      subst h
      cases closest with
      | none => exact hinv.elim
      | some c2 => exact hinv.2
  | cons hd rest ih =>
      intro tgt closest hinv ia h
      obtain ⟨idx, a⟩ := hd
      rw [lightningLoop] at h
      split at h
      · rename_i hvis
        split at h
        · rename_i hlt
          exact ih _ _ (lightningInv_step s R hinv idx hvis hlt) ia h
        · exact ih _ _ hinv ia h
      · exact ih _ _ hinv ia h

theorem lightningLoop_le (s : HEngine) (R : Int) :
    ∀ (L : List (Nat × Actor)) (tgt : Option (Nat × Actor))
      (closest : Option Int), lightningInv s R tgt closest →
      ∀ ia c2, lightningLoop s R L tgt closest = some ia →
        closest = some c2 → dist2 s ia.2 ≤ c2 := by
  intro L
  induction L with
  | nil =>
      intro tgt closest hinv ia c2 h hc2
      rw [lightningLoop] at h
      subst h
      subst hc2
      exact le_of_eq hinv.1.symm
  | cons hd rest ih =>
      intro tgt closest hinv ia c2 h hc2
      obtain ⟨idx, a⟩ := hd
      rw [lightningLoop] at h
      split at h
      · rename_i hvis
        split at h
        · rename_i hlt
          subst hc2
          have hle : dist2 s ia.2 ≤ dist2 s a :=
            ih _ _ (lightningInv_step s R hinv idx hvis hlt) ia
              (dist2 s a) h rfl
          exact le_trans hle (le_of_lt hlt)
        · exact ih _ _ hinv ia c2 h hc2
      · exact ih _ _ hinv ia c2 h hc2

theorem lightningLoop_min (s : HEngine) (R : Int) :
    ∀ (L : List (Nat × Actor)) (tgt : Option (Nat × Actor))
      (closest : Option Int), lightningInv s R tgt closest →
      ∀ ia, lightningLoop s R L tgt closest = some ia →
        ∀ jb ∈ L, lightningQual s R jb.2 →
          dist2 s ia.2 ≤ dist2 s jb.2 := by
  intro L
  induction L with
  | nil =>
      intro tgt closest hinv ia h jb hjb hq
      exact absurd hjb (List.not_mem_nil jb)
  | cons hd rest ih =>
      intro tgt closest hinv ia h jb hjb hq
      obtain ⟨idx, a⟩ := hd
      rw [lightningLoop] at h
      split at h
      · rename_i hvis
        split at h
        · rename_i hlt
          rcases List.mem_cons.mp hjb with heq | hmem
          · subst heq
            exact lightningLoop_le s R rest _ _
              (lightningInv_step s R hinv idx hvis hlt) ia (dist2 s a) h rfl
          · exact ih _ _ (lightningInv_step s R hinv idx hvis hlt) ia h
              jb hmem hq
        · rename_i hlt
          rcases List.mem_cons.mp hjb with heq | hmem
          · subst heq
            cases closest with
            | none => exact absurd ⟨hq.2.1, hq.2.2⟩ hlt
            | some c2 =>
                have hc2le : c2 ≤ dist2 s a := le_of_not_lt hlt
                exact le_trans
                  (lightningLoop_le s R rest _ _ hinv ia c2 h rfl) hc2le
          · exact ih _ _ hinv ia h jb hmem hq
      · rename_i hvis
        rcases List.mem_cons.mp hjb with heq | hmem
        · subst heq
          exact absurd hq.1 hvis
        · exact ih _ _ hinv ia h jb hmem hq

theorem lightningLoop_eq_none (s : HEngine) (R : Int) :
    ∀ (L : List (Nat × Actor)) (tgt : Option (Nat × Actor))
      (closest : Option Int), lightningInv s R tgt closest →
      lightningLoop s R L tgt closest = none →
      tgt = none ∧ ∀ jb ∈ L, ¬ lightningQual s R jb.2 := by
  intro L
  induction L with
  | nil =>
      intro tgt closest hinv h
      rw [lightningLoop] at h
      exact ⟨h, fun jb hjb _ => absurd hjb (List.not_mem_nil jb)⟩
  | cons hd rest ih =>
      intro tgt closest hinv h
      obtain ⟨idx, a⟩ := hd
      rw [lightningLoop] at h
      split at h
      · rename_i hvis
        split at h
        · exact absurd h (lightningLoop_ne_none s R rest _ _)
        · rename_i hlt
          obtain ⟨htgt, hrest⟩ := ih _ _ hinv h
          subst htgt
          refine ⟨rfl, ?_⟩
          intro jb hjb
          rcases List.mem_cons.mp hjb with heq | hmem
          · subst heq
            intro hq
            cases closest with
            | none => exact absurd ⟨hq.2.1, hq.2.2⟩ hlt
            | some c2 => exact hinv.elim
          · exact hrest jb hmem
      · rename_i hvis
        obtain ⟨htgt, hrest⟩ := ih _ _ hinv h
        refine ⟨htgt, ?_⟩
        intro jb hjb
        rcases List.mem_cons.mp hjb with heq | hmem
        · subst heq
          intro hq
          exact absurd hq.1 hvis
        · exact hrest jb hmem

theorem lightningLoop_first (s : HEngine) (R : Int) :
    ∀ (L : List (Nat × Actor)) (tgt : Option (Nat × Actor))
      (closest : Option Int), lightningInv s R tgt closest →
      ∀ ia, lightningLoop s R L tgt closest = some ia →
        tgt = some ia ∨
        ∃ L1 L2, L = L1 ++ ia :: L2 ∧
          (∀ jb ∈ L1, lightningQual s R jb.2 →
            dist2 s ia.2 < dist2 s jb.2) ∧
          (∀ c2, closest = some c2 → dist2 s ia.2 < c2) := by
  intro L
  induction L with
  | nil =>
      intro tgt closest hinv ia h
      rw [lightningLoop] at h
      exact Or.inl h
  | cons hd rest ih =>
      intro tgt closest hinv ia h
      obtain ⟨idx, a⟩ := hd
      rw [lightningLoop] at h
      split at h
      · rename_i hvis
        split at h
        · rename_i hlt
          rcases ih _ _ (lightningInv_step s R hinv idx hvis hlt) ia h with
            htgt | ⟨L1, L2, hsplit, hL1, hc⟩
          · cases htgt
            refine Or.inr ⟨[], rest, rfl, ?_, ?_⟩
            · intro jb hjb
              exact absurd hjb (List.not_mem_nil jb)
            · intro c2 hc2
              subst hc2
              exact hlt
          · refine Or.inr ⟨(idx, a) :: L1, L2, by rw [hsplit, List.cons_append], ?_, ?_⟩
            · intro jb hjb
              rcases List.mem_cons.mp hjb with heq | hmem
              · subst heq
                intro _
                exact hc (dist2 s a) rfl
              · exact hL1 jb hmem
            · intro c2 hc2
              subst hc2
              exact lt_trans (hc (dist2 s a) rfl) hlt
        · rename_i hlt
          rcases ih _ _ hinv ia h with htgt | ⟨L1, L2, hsplit, hL1, hc⟩
          · exact Or.inl htgt
          · refine Or.inr ⟨(idx, a) :: L1, L2, by rw [hsplit, List.cons_append], ?_, hc⟩
            intro jb hjb
            rcases List.mem_cons.mp hjb with heq | hmem
            · subst heq
              intro hq
              cases closest with
              | none => exact absurd ⟨hq.2.1, hq.2.2⟩ hlt
              | some c2 =>
                  exact lt_of_lt_of_le (hc c2 rfl) (le_of_not_lt hlt)
            · exact hL1 jb hmem
      · rename_i hvis
        rcases ih _ _ hinv ia h with htgt | ⟨L1, L2, hsplit, hL1, hc⟩
        · exact Or.inl htgt
        · refine Or.inr ⟨(idx, a) :: L1, L2, by rw [hsplit, List.cons_append], ?_, hc⟩
          intro jb hjb
          rcases List.mem_cons.mp hjb with heq | hmem
          · subst heq
            intro hq
            exact absurd hq.1 hvis
          · exact hL1 jb hmem

/-- C9 (amended): the lightning scroll considers the actors other than the
consumer that stand on a visible tile — but the distance cut-off is
`distance < maximum_range + 1` (squared: `dist2 < (maximum_range + 1)^2`),
NOT `distance ≤ maximum_range`: an enemy strictly beyond `maximum_range` but
within `maximum_range + 1` is still struck.  Among the qualifying enemies it
picks the first-found one at minimal distance, logs the strike, applies
`take_damage(damage)` to it and consumes the scroll; when no enemy qualifies
it raises Impossible and consumes nothing. -/
theorem C9_lightning_range_off_by_one (s : HEngine) (damage R : Int)
    (item_id : Nat) :
    ((∀ jb ∈ s.enemies.enum, ¬ lightningQual s R jb.2) →
      LightningDamageConsumable.activate damage R item_id s =
        .error ⟨"Ningun enemigo a la vista para atacar."⟩) ∧
    ((∃ jb ∈ s.enemies.enum, lightningQual s R jb.2) →
      ∃ i a, lightningQual s R a ∧
        (∃ L1 L2, s.enemies.enum = L1 ++ (i, a) :: L2 ∧
          ∀ jb ∈ L1, lightningQual s R jb.2 →
            dist2 s a < dist2 s jb.2) ∧
        (∀ jb ∈ s.enemies.enum, lightningQual s R jb.2 →
          dist2 s a ≤ dist2 s jb.2) ∧
        ∃ s3,
          LightningDamageConsumable.activate damage R item_id s = .ok s3 ∧
          s3.inventory = s.inventory.erase item_id ∧
          ("Un rayo golpea al " ++ a.name ++ " con gran estruendo. Hace " ++
            toString damage ++ " de dano.") ∈ s3.message_log.texts ∧
          ∃ a2, s3.enemies = s.enemies.set i a2 ∧
            a2.fighter.hp_stored =
              (if a.fighter.defensive_turns > 0 then a.fighter.hp_stored
               else max 0 (min (a.fighter.hp_stored - damage)
                 a.fighter.max_hp))) := by
  constructor
  · intro hnone
    have hln : lightningLoop s R s.enemies.enum none none = none := by
      cases hres : lightningLoop s R s.enemies.enum none none with
      | none => rfl
      | some ia =>
          rcases lightningLoop_first s R _ none none trivial ia hres with
            htgt | ⟨L1, L2, hsplit, -, -⟩
          · exact Option.noConfusion htgt
          · have hmem : ia ∈ s.enemies.enum := by
              rw [hsplit]
              exact List.mem_append_right _ (List.mem_cons_self _ _)
            exact absurd
              (lightningLoop_qual s R _ none none trivial ia hres)
              (hnone ia hmem)
    rw [LightningDamageConsumable.activate, hln]
  · intro hex
    obtain ⟨jb0, hjb0, hq0⟩ := hex
    cases hres : lightningLoop s R s.enemies.enum none none with
    | none =>
        obtain ⟨-, hno⟩ := lightningLoop_eq_none s R _ none none trivial hres
        exact absurd hq0 (hno jb0 hjb0)
    | some ia =>
        obtain ⟨i, a⟩ := ia
        refine ⟨i, a,
          lightningLoop_qual s R _ none none trivial (i, a) hres, ?_, ?_, ?_⟩
        · rcases lightningLoop_first s R _ none none trivial (i, a) hres with
            htgt | ⟨L1, L2, heq, hstrict, -⟩
          · exact Option.noConfusion htgt
          · exact ⟨L1, L2, heq, hstrict⟩
        · intro jb hjb hq
          exact lightningLoop_min s R _ none none trivial (i, a) hres
            jb hjb hq
        · rw [LightningDamageConsumable.activate, hres]
          dsimp only
          refine ⟨_, rfl, rfl, ?_, ?_⟩
          · exact Fighter.take_damage_texts_mono damage
              (MessageLog.mem_texts_add_self _ _ _ _)
          · exact ⟨_, rfl, Fighter.take_damage_hp _ damage⟩

/-- An enemy at (2,5): squared distance 29 from the player at the origin,
i.e. Euclidean distance √29 ≈ 5.39 — strictly beyond maximum_range 5. -/
def farEnemyFx : Actor :=
  ⟨2, 5, "o", (63, 127, 63), "Orco", true, RenderOrder.ACTOR, true,
   ⟨10, 10, 0, 4, 0, 0, 0⟩, ⟨none, none⟩, ⟨1, 0, 0, 150, 40⟩, 0⟩

/-- The C9 scenario: everything visible, the lightning scroll is item 7 in
the inventory. -/
def hengineC9 : HEngine :=
  ⟨playerFx, [farEnemyFx], emptyLog, "Jugador", [7],
   fun _ _ => true, fun _ _ => false⟩

/-- An enemy adjacent to the player, clearly in range. -/
def nearEnemyFx : Actor :=
  ⟨1, 0, "o", (63, 127, 63), "Orco", true, RenderOrder.ACTOR, true,
   ⟨10, 10, 0, 4, 0, 0, 0⟩, ⟨none, none⟩, ⟨1, 0, 0, 150, 40⟩, 0⟩

/-- The C9 witness scenario with the adjacent enemy. -/
def hengineC9near : HEngine :=
  ⟨playerFx, [nearEnemyFx], emptyLog, "Jugador", [7],
   fun _ _ => true, fun _ _ => false⟩

/-- C9 counterexample: with `maximum_range = 5` and the only (visible) enemy
at squared distance 29 > 25 — i.e. strictly beyond maximum_range — the claim
demands Impossible and an unconsumed scroll; the code instead strikes that
enemy (hp 10 → 7 under damage 3) and consumes the scroll, because its cut-off
is `distance < maximum_range + 1`. -/
theorem C9_counterexample :
    (5 : Int) ^ 2 < dist2 hengineC9 farEnemyFx ∧
    okEnemyHpOf (LightningDamageConsumable.activate 3 5 7 hengineC9) =
      some [7] ∧
    okInventoryOf (LightningDamageConsumable.activate 3 5 7 hengineC9) =
      some [] := by
  exact ⟨by decide, rfl, rfl⟩

/-- C9 witness: no visible enemy (everything out of the FOV) yields the
Impossible error; an adjacent qualified enemy yields the full strike
behaviour. -/
theorem C9_lightning_range_off_by_one_witness :
    (LightningDamageConsumable.activate 3 5 7 hengineC4 =
      .error ⟨"Ningun enemigo a la vista para atacar."⟩) ∧
    (∃ i a, lightningQual hengineC9near 5 a ∧
      (∃ L1 L2, hengineC9near.enemies.enum = L1 ++ (i, a) :: L2 ∧
        ∀ jb ∈ L1, lightningQual hengineC9near 5 jb.2 →
          dist2 hengineC9near a < dist2 hengineC9near jb.2) ∧
      (∀ jb ∈ hengineC9near.enemies.enum, lightningQual hengineC9near 5 jb.2 →
        dist2 hengineC9near a ≤ dist2 hengineC9near jb.2) ∧
      ∃ s3, LightningDamageConsumable.activate 3 5 7 hengineC9near = .ok s3 ∧
        s3.inventory = hengineC9near.inventory.erase 7 ∧
        ("Un rayo golpea al " ++ a.name ++ " con gran estruendo. Hace " ++
          toString (3 : Int) ++ " de dano.") ∈ s3.message_log.texts ∧
        ∃ a2, s3.enemies = hengineC9near.enemies.set i a2 ∧
          a2.fighter.hp_stored =
            (if a.fighter.defensive_turns > 0 then a.fighter.hp_stored
             else max 0 (min (a.fighter.hp_stored - 3)
               a.fighter.max_hp))) :=
  ⟨(C9_lightning_range_off_by_one hengineC4 3 5 7).1
      (fun jb hjb hq => Bool.noConfusion hq.1),
   (C9_lightning_range_off_by_one hengineC9near 3 5 7).2
      ⟨(0, nearEnemyFx), by decide, by decide⟩⟩

end Roguethon
